import Mathlib

/-
Verification of the Codeforces practice-problem Telegram bot (src/main.py)
against its natural-language specification.

The development is a shallow embedding of the Python source:
* `fetch_cf_problems` models the TTL-guarded catalog cache (main.py lines 92-108),
* `filter_problems` models the filter engine (lines 110-124),
* `webhook` together with `handle_callback` / `handle_message` models the
  webhook conversation controller (lines 173-261),
* the SQLite `users` / `history` tables are modelled as explicit state
  (`UserState`, `HistoryEntry` inside `ExecSt`), for the single chat id the
  claims are about,
* outbound `send_message` calls are modelled by `trySend`: the Python code
  never inspects the HTTP response of `requests.post`, but the call can raise
  (e.g. a timeout); an exception propagates out of the Flask handler, so the
  model returns `Except ExecSt ExecSt`, with `.error` carrying the state at
  the moment the exception escaped (SQLite writes already committed persist),
* the remote catalog call is equally unguarded: `requests.get` (line 100) and
  `resp.json()` (line 103) can raise, escaping `fetch_cf_problems` before any
  cache write; `RemoteOut` models the attempt's outcome (`raises` or
  `delivers` a decoded response), `fetch_cf_problems_io` / `filter_problems_io`
  add this exception path on top of the delivered-response functions
  `fetch_cf_problems` / `filter_problems`, and the webhook handler takes a
  `RemoteOut` per request,
* `random.shuffle` has no fixed seed, so it is modelled by an arbitrary
  function `π : List Problem → List Problem` together with the hypothesis
  `∀ l, (π l).Perm l` where a theorem needs it; `random.shuffle` mutates its
  argument in place, which matters because for an unrecognized mode
  `filtered = problems` aliases the very list object stored in the module
  cache `CF_CACHE` — the `aliased` flag of `FetchOut` tracks this,
* Python strings are Lean `String`s; `str.strip` / `str.isdigit` /
  `str.lower` / `str.upper` are modelled on ASCII (`pyStrip`, `pyIsDigit`,
  `pyLower`, `pyUpper`), `int()` on an all-digit string by `digitsToNat`,
* wall-clock time (`time.time()`) is a `Nat` supplied per call.
-/

namespace CFBot

/-- A problem record of the remote catalog, with the fields the source reads:
`p["contestId"]`, `p["index"]`, `p["name"]`, `p.get("rating")`,
`p.get("tags", [])`. -/
structure Problem where
  contestId : Int
  index : String
  name : String
  rating : Option Int
  tags : List String
deriving DecidableEq

/-- The remote response of `requests.get("https://codeforces.com/api/problemset.problems")`:
its HTTP status code, the `"status"` field of the JSON body, and the list under
`result.problems`. -/
structure HttpResp where
  status_code : Nat
  status : String
  problems : List Problem
deriving DecidableEq

/-- The module-level cache `CF_CACHE = {"timestamp": 0, "problems": []}`. -/
structure CFCache where
  timestamp : Nat
  problems : List Problem
deriving DecidableEq

/-- `CF_CACHE_TTL = 3600`. -/
def CF_CACHE_TTL : Nat := 3600

/-- Outcome of one call to `fetch_cf_problems`: the returned list, the cache
afterwards, whether a remote request was issued, and whether the returned list
is the very list object stored in the cache (`aliased` is true on a cache hit
and on a successful refresh; the failure branches return a fresh `[]`). -/
structure FetchOut where
  result : List Problem
  cache : CFCache
  requested : Bool
  aliased : Bool
deriving DecidableEq

/-- `fetch_cf_problems(refresh=False)` (main.py lines 95-108): serve the cache
when it is nonempty, `refresh` is not requested and the timestamp is younger
than the TTL; otherwise issue the remote request, returning `[]` on a non-200
status or a JSON status different from `"OK"` without touching the cache, and
replacing the cache wholesale (list and timestamp) on success. -/
def fetch_cf_problems (refresh : Bool) (now : Nat) (resp : HttpResp) (c : CFCache) : FetchOut :=
  if c.problems ≠ [] ∧ refresh = false ∧ now - c.timestamp < CF_CACHE_TTL then
    ⟨c.problems, c, false, true⟩
  else if resp.status_code ≠ 200 then
    ⟨[], c, true, false⟩
  else if resp.status ≠ "OK" then
    ⟨[], c, true, false⟩
  else
    ⟨resp.problems, ⟨now, resp.problems⟩, true, true⟩

/-- Outcome of the one remote attempt of a fetch: `requests.get(url,
timeout=15)` (main.py line 100) and the following `resp.json()` (line 103)
have no exception handling, so either of them can raise — a timeout, a
connection failure, a malformed JSON body — which escapes `fetch_cf_problems`
before any cache write; or the attempt delivers a decoded response. -/
inductive RemoteOut
  | raises
  | delivers (resp : HttpResp)
deriving DecidableEq

/-- `fetch_cf_problems` with its exception path: on a cache hit no remote
attempt is made and nothing can raise; otherwise a raising attempt
propagates (`.error`, the cache untouched), and a delivered response is
processed exactly as in `fetch_cf_problems` (whose hit branch is
unreachable here, its condition being false). -/
def fetch_cf_problems_io (refresh : Bool) (now : Nat) (r : RemoteOut) (c : CFCache) :
    Except Unit FetchOut :=
  if c.problems ≠ [] ∧ refresh = false ∧ now - c.timestamp < CF_CACHE_TTL then
    .ok ⟨c.problems, c, false, true⟩
  else
    match r with
    | .raises => .error ()
    | .delivers resp => .ok (fetch_cf_problems refresh now resp c)

/-- A delivered response makes the raising fetch agree with the plain one. -/
lemma fetch_io_delivers (refresh : Bool) (now : Nat) (resp : HttpResp) (c : CFCache) :
    fetch_cf_problems_io refresh now (RemoteOut.delivers resp) c
      = .ok (fetch_cf_problems refresh now resp c) := by
  unfold fetch_cf_problems_io
  split
  · rename_i hhit
    unfold fetch_cf_problems
    rw [if_pos hhit]
  · rfl

/-- Python `str.lower` (ASCII model). -/
def pyLower (s : String) : String := String.mk (s.data.map Char.toLower)

/-- Python `str.upper` (ASCII model). -/
def pyUpper (s : String) : String := String.mk (s.data.map Char.toUpper)

/-- Python whitespace as stripped by `str.strip()` (ASCII model). -/
def pyIsSpace (ch : Char) : Bool :=
  ch = ' ' ∨ ch = '\t' ∨ ch = '\n' ∨ ch = '\r' ∨ ch = '\x0b' ∨ ch = '\x0c'

/-- Python `str.strip()` (ASCII model). -/
def pyStrip (s : String) : String :=
  String.mk (((s.data.dropWhile pyIsSpace).reverse.dropWhile pyIsSpace).reverse)

/-- Python `str.isdigit()`: nonempty and all digits (ASCII model). -/
def pyIsDigit (s : String) : Bool := !s.data.isEmpty && s.data.all Char.isDigit

/-- `int()` on an all-digit string. -/
def digitsToNat (s : String) : Nat :=
  s.data.foldl (fun a ch => 10 * a + (ch.toNat - 48)) 0

/-- `tag.lower() in [t.lower() for t in p.get("tags", [])]` for a non-null tag. -/
def tagMatch (t : String) (p : Problem) : Bool :=
  (p.tags.map pyLower).contains (pyLower t)

/-- The mode == "tag" comprehension condition
`tag and tag.lower() in [t.lower() for t in p.get("tags", [])]`:
a `None` or empty tag is falsy, so the condition excludes every problem. -/
def tagModeKeep (tag : Option String) (p : Problem) : Bool :=
  match tag with
  | none => false
  | some t => if t = "" then false else tagMatch t p

/-- The mode == "rating_tag" comprehension
`[p for p in problems if p.get("rating") == rating and tag.lower() in [...]]`,
evaluated left to right: `tag.lower()` is reached only when the rating matches
(Python `and` short-circuits), and raises `AttributeError` when `tag` is
`None` — modelled by `.error ()`. -/
def ratingTagFilter (rating : Option Int) (tag : Option String) :
    List Problem → Except Unit (List Problem)
  | [] => .ok []
  | p :: ps =>
    if p.rating = rating then
      match tag with
      | none => .error ()
      | some t =>
        match ratingTagFilter rating tag ps with
        | .error e => .error e
        | .ok r => .ok (if tagMatch t p then p :: r else r)
    else ratingTagFilter rating tag ps

/-- Outcome of one call to `filter_problems`: the returned (possibly raising)
list and the cache afterwards, plus whether the embedded fetch issued a
remote request. -/
structure FilterOut where
  result : Except Unit (List Problem)
  cache : CFCache
  requested : Bool

/-- The filtering tail of `filter_problems` (main.py lines 112-124), over the
outcome `fo` of the embedded fetch: filter according to `mode`, shuffle with
`random.shuffle` (modelled by `π`) and truncate to `count`.  For the four
recognized modes the filtered list is a fresh list built by a comprehension;
for any other mode `filtered` is the very list object returned by the fetch,
so the in-place shuffle permutes the list stored in `CF_CACHE` whenever that
object is the cached one. -/
def filter_from (π : List Problem → List Problem) (mode : Option String)
    (rating : Option Int) (tag : Option String) (index_letter : Option String)
    (count : Nat) (fo : FetchOut) : FilterOut :=
  if mode = some "rating" then
    ⟨.ok ((π (fo.result.filter (fun p => decide (p.rating = rating)))).take count),
      fo.cache, fo.requested⟩
  else if mode = some "tag" then
    ⟨.ok ((π (fo.result.filter (tagModeKeep tag))).take count), fo.cache, fo.requested⟩
  else if mode = some "index" then
    ⟨.ok ((π (fo.result.filter (fun p => decide (some p.index = index_letter)))).take count),
      fo.cache, fo.requested⟩
  else if mode = some "rating_tag" then
    match ratingTagFilter rating tag fo.result with
    | .error e => ⟨.error e, fo.cache, fo.requested⟩
    | .ok l => ⟨.ok ((π l).take count), fo.cache, fo.requested⟩
  else
    ⟨.ok ((π fo.result).take count),
      if fo.aliased then ⟨fo.cache.timestamp, π fo.result⟩ else fo.cache,
      fo.requested⟩

/-- `filter_problems(mode, rating, tag, index_letter, count)`
(main.py lines 110-124), for a delivered response: run `fetch_cf_problems()`
(no refresh), then the filtering tail. -/
def filter_problems (π : List Problem → List Problem) (mode : Option String)
    (rating : Option Int) (tag : Option String) (index_letter : Option String)
    (count : Nat) (now : Nat) (resp : HttpResp) (c : CFCache) : FilterOut :=
  filter_from π mode rating tag index_letter count (fetch_cf_problems false now resp c)

/-- `filter_problems` with the fetch's exception path: a fetch that raises
escapes the filter (and hence the webhook handler) before any filtering,
cache write or send. -/
def filter_problems_io (π : List Problem → List Problem) (mode : Option String)
    (rating : Option Int) (tag : Option String) (index_letter : Option String)
    (count : Nat) (now : Nat) (r : RemoteOut) (c : CFCache) : Except Unit FilterOut :=
  match fetch_cf_problems_io false now r c with
  | .error e => .error e
  | .ok fo => .ok (filter_from π mode rating tag index_letter count fo)

/-- A delivered response makes the raising filter agree with the plain one. -/
lemma filter_io_delivers (π : List Problem → List Problem) (mode : Option String)
    (rating : Option Int) (tag idx : Option String) (cnt now : Nat) (resp : HttpResp)
    (c : CFCache) :
    filter_problems_io π mode rating tag idx cnt now (RemoteOut.delivers resp) c
      = .ok (filter_problems π mode rating tag idx cnt now resp c) := by
  unfold filter_problems_io
  rw [fetch_io_delivers]
  rfl

/-- The cache left behind by the fetch embedded in a `filter_problems` call. -/
def postFetchCache (now : Nat) (resp : HttpResp) (c : CFCache) : CFCache :=
  (fetch_cf_problems false now resp c).cache

/-- On an aliased fetch outcome the returned list is the cached list. -/
lemma fetch_aliased_result (refresh : Bool) (now : Nat) (resp : HttpResp) (c : CFCache)
    (h : (fetch_cf_problems refresh now resp c).aliased = true) :
    (fetch_cf_problems refresh now resp c).result =
      (fetch_cf_problems refresh now resp c).cache.problems := by
  revert h
  unfold fetch_cf_problems
  split
  · intro _; rfl
  · split
    · intro h; simp at h
    · split
      · intro h; simp at h
      · intro _; rfl

/-- With a non-null tag, the rating_tag comprehension never raises and equals
a plain filter by the conjunction of the two predicates. -/
lemma ratingTagFilter_some (rating : Option Int) (t : String) (ps : List Problem) :
    ratingTagFilter rating (some t) ps =
      .ok (ps.filter (fun p => decide (p.rating = rating) && tagMatch t p)) := by
  induction ps with
  | nil => rfl
  | cons p ps ih =>
    unfold ratingTagFilter
    rw [ih]
    by_cases h : p.rating = rating
    · by_cases ht : tagMatch t p <;> simp [List.filter_cons, h, ht]
    · simp [List.filter_cons, h]

/-- Unfolding of `filter_problems` at mode "rating". -/
lemma filter_mode_rating (π : List Problem → List Problem) (rating : Option Int)
    (tag idx : Option String) (cnt now : Nat) (resp : HttpResp) (c : CFCache) :
    filter_problems π (some "rating") rating tag idx cnt now resp c =
      ⟨.ok ((π ((fetch_cf_problems false now resp c).result.filter
          (fun p => decide (p.rating = rating)))).take cnt),
        (fetch_cf_problems false now resp c).cache,
        (fetch_cf_problems false now resp c).requested⟩ := rfl

/-- Unfolding of `filter_problems` at mode "tag". -/
lemma filter_mode_tag (π : List Problem → List Problem) (rating : Option Int)
    (tag idx : Option String) (cnt now : Nat) (resp : HttpResp) (c : CFCache) :
    filter_problems π (some "tag") rating tag idx cnt now resp c =
      ⟨.ok ((π ((fetch_cf_problems false now resp c).result.filter (tagModeKeep tag))).take cnt),
        (fetch_cf_problems false now resp c).cache,
        (fetch_cf_problems false now resp c).requested⟩ := rfl

/-- Unfolding of `filter_problems` at mode "index". -/
lemma filter_mode_index (π : List Problem → List Problem) (rating : Option Int)
    (tag idx : Option String) (cnt now : Nat) (resp : HttpResp) (c : CFCache) :
    filter_problems π (some "index") rating tag idx cnt now resp c =
      ⟨.ok ((π ((fetch_cf_problems false now resp c).result.filter
          (fun p => decide (some p.index = idx)))).take cnt),
        (fetch_cf_problems false now resp c).cache,
        (fetch_cf_problems false now resp c).requested⟩ := rfl

/-- Unfolding of `filter_problems` at mode "rating_tag" with a non-null tag. -/
lemma filter_mode_rating_tag (π : List Problem → List Problem) (rating : Option Int)
    (t : String) (idx : Option String) (cnt now : Nat) (resp : HttpResp) (c : CFCache) :
    filter_problems π (some "rating_tag") rating (some t) idx cnt now resp c =
      ⟨.ok ((π ((fetch_cf_problems false now resp c).result.filter
          (fun p => decide (p.rating = rating) && tagMatch t p))).take cnt),
        (fetch_cf_problems false now resp c).cache,
        (fetch_cf_problems false now resp c).requested⟩ := by
  show (match ratingTagFilter rating (some t) (fetch_cf_problems false now resp c).result with
    | .error e =>
        (⟨.error e, (fetch_cf_problems false now resp c).cache,
          (fetch_cf_problems false now resp c).requested⟩ : FilterOut)
    | .ok l =>
        ⟨.ok ((π l).take cnt), (fetch_cf_problems false now resp c).cache,
          (fetch_cf_problems false now resp c).requested⟩) = _
  rw [ratingTagFilter_some]

/-- Unfolding of `filter_problems` at an unrecognized mode: `filtered` aliases
the fetched list, so the in-place shuffle lands in the cache whenever the
fetch returned the cached object. -/
lemma filter_mode_other (π : List Problem → List Problem) (mode : Option String)
    (rating : Option Int) (tag idx : Option String) (cnt now : Nat) (resp : HttpResp)
    (c : CFCache) (h1 : mode ≠ some "rating") (h2 : mode ≠ some "tag")
    (h3 : mode ≠ some "index") (h4 : mode ≠ some "rating_tag") :
    filter_problems π mode rating tag idx cnt now resp c =
      ⟨.ok ((π (fetch_cf_problems false now resp c).result).take cnt),
        if (fetch_cf_problems false now resp c).aliased then
          ⟨(fetch_cf_problems false now resp c).cache.timestamp,
            π (fetch_cf_problems false now resp c).result⟩
        else (fetch_cf_problems false now resp c).cache,
        (fetch_cf_problems false now resp c).requested⟩ := by
  unfold filter_problems filter_from
  rw [if_neg h1, if_neg h2, if_neg h3, if_neg h4]

/-- The cache after a recognized-mode `filter_problems` call is exactly the
post-fetch cache. -/
lemma filter_cache_recognized (π : List Problem → List Problem) (mode : Option String)
    (rating : Option Int) (tag idx : Option String) (cnt now : Nat) (resp : HttpResp)
    (c : CFCache)
    (h : mode = some "rating" ∨ mode = some "tag" ∨ mode = some "index" ∨
      mode = some "rating_tag") :
    (filter_problems π mode rating tag idx cnt now resp c).cache =
      (fetch_cf_problems false now resp c).cache := by
  rcases h with h | h | h | h <;> subst h
  · rfl
  · rfl
  · rfl
  · show (match ratingTagFilter rating tag (fetch_cf_problems false now resp c).result with
      | .error e =>
          (⟨.error e, (fetch_cf_problems false now resp c).cache,
            (fetch_cf_problems false now resp c).requested⟩ : FilterOut)
      | .ok l =>
          ⟨.ok ((π l).take cnt), (fetch_cf_problems false now resp c).cache,
            (fetch_cf_problems false now resp c).requested⟩).cache = _
    cases ratingTagFilter rating tag (fetch_cf_problems false now resp c).result <;> rfl

/-- A concrete catalog problem used in concrete instantiations. -/
def pA : Problem := ⟨1, "A", "watermelon", some 1200, ["math"]⟩

/-- A second concrete catalog problem. -/
def pB : Problem := ⟨2, "B", "theatre", some 800, ["greedy"]⟩

/-- A concrete failing remote response (HTTP 500). -/
def respBad : HttpResp := ⟨500, "", []⟩

/-- A concrete successful remote response carrying `[pA]`. -/
def respA : HttpResp := ⟨200, "OK", [pA]⟩

/-- A concrete nonempty cache refreshed at time 2. -/
def cGood : CFCache := ⟨2, [pA]⟩

/-- C2: a catalog fetch call in which the remote request fails (non-200) or
the body is malformed (status not "OK") leaves the cache — problem list and
last-refresh timestamp — completely unchanged, returns `[]` whenever it did
issue the request, and a later call within the TTL of a prior good (nonempty)
cache still returns the prior good contents without issuing a request. -/
theorem c2_fetch_failure_cache_intact (refresh : Bool) (now : Nat) (resp : HttpResp)
    (c : CFCache) (hbad : resp.status_code ≠ 200 ∨ resp.status ≠ "OK") :
    (fetch_cf_problems refresh now resp c).cache = c ∧
    ((fetch_cf_problems refresh now resp c).requested = true →
      (fetch_cf_problems refresh now resp c).result = []) ∧
    (∀ now2 resp2, c.problems ≠ [] → now2 - c.timestamp < CF_CACHE_TTL →
      (fetch_cf_problems false now2 resp2 (fetch_cf_problems refresh now resp c).cache).result
          = c.problems ∧
      (fetch_cf_problems false now2 resp2 (fetch_cf_problems refresh now resp c).cache).requested
          = false) := by
  have hc : (fetch_cf_problems refresh now resp c).cache = c := by
    unfold fetch_cf_problems
    split
    · rfl
    · split
      · rfl
      · split
        · rfl
        · rename_i hs hok
          rcases hbad with h | h
          · exact absurd h hs
          · exact absurd h hok
  have hr : (fetch_cf_problems refresh now resp c).requested = true →
      (fetch_cf_problems refresh now resp c).result = [] := by
    unfold fetch_cf_problems
    split
    · intro h; simp at h
    · split
      · intro _; rfl
      · split
        · intro _; rfl
        · rename_i hs hok
          rcases hbad with h | h
          · exact absurd h hs
          · exact absurd h hok
  refine ⟨hc, hr, fun now2 resp2 hne hlt => ?_⟩
  rw [hc]
  unfold fetch_cf_problems
  rw [if_pos ⟨hne, rfl, hlt⟩]
  exact ⟨rfl, rfl⟩

/-- Witness for `c2_fetch_failure_cache_intact` at a concrete failing fetch
over a concrete good cache. -/
theorem c2_fetch_failure_cache_intact_w :
    (fetch_cf_problems true 10 respBad cGood).cache = cGood ∧
    (fetch_cf_problems true 10 respBad cGood).result = [] ∧
    (fetch_cf_problems false 11 respBad (fetch_cf_problems true 10 respBad cGood).cache).result
        = cGood.problems :=
  ⟨(c2_fetch_failure_cache_intact true 10 respBad cGood (Or.inl (by decide))).1,
    (c2_fetch_failure_cache_intact true 10 respBad cGood (Or.inl (by decide))).2.1 (by decide),
    ((c2_fetch_failure_cache_intact true 10 respBad cGood (Or.inl (by decide))).2.2
      11 respBad (by decide) (by decide)).1⟩

/-- C3 as stated is false: with an empty initial cache and a failing remote,
two fetch calls with `refresh=False`, the second 10 seconds (well within the
3600-second TTL) after the first, EACH issue a remote request — two requests
across the two calls, not at most one.  The failed first call does not update
the timestamp, so the second call fetches again. -/
theorem c3_two_requests_cex :
    (fetch_cf_problems false 10 respBad ⟨0, []⟩).requested = true ∧
    (fetch_cf_problems false 20 respBad
        (fetch_cf_problems false 10 respBad ⟨0, []⟩).cache).requested = true ∧
    20 - 10 < CF_CACHE_TTL := by
  refine ⟨rfl, ?_, by decide⟩
  show (fetch_cf_problems false 20 respBad ⟨0, []⟩).requested = true
  rfl

/-- C3 (amended): two successive `refresh=False` fetches, the second within
the TTL of the first, issue at most one remote request PROVIDED any request
the first call issues succeeds (HTTP 200, JSON status "OK") with a nonempty
problem list; equivalently, a nonempty cache whose last-refresh timestamp is
younger than the TTL is never re-fetched. -/
theorem c3_ttl_single_request (now1 now2 : Nat) (resp1 resp2 : HttpResp) (c : CFCache)
    (httl : now2 - now1 < CF_CACHE_TTL)
    (hgood : (fetch_cf_problems false now1 resp1 c).requested = true →
      resp1.status_code = 200 ∧ resp1.status = "OK" ∧ resp1.problems ≠ []) :
    ¬((fetch_cf_problems false now1 resp1 c).requested = true ∧
      (fetch_cf_problems false now2 resp2
          (fetch_cf_problems false now1 resp1 c).cache).requested = true) := by
  rintro ⟨h1, h2⟩
  obtain ⟨hs, hok, hne⟩ := hgood h1
  have hcache : (fetch_cf_problems false now1 resp1 c).cache = ⟨now1, resp1.problems⟩ := by
    revert h1
    unfold fetch_cf_problems
    split
    · intro h1; simp at h1
    · intro _
      rw [if_neg (by simp [hs]), if_neg (by simp [hok])]
  rw [hcache] at h2
  revert h2
  unfold fetch_cf_problems
  rw [if_pos ⟨hne, rfl, httl⟩]
  simp

/-- Witness for `c3_ttl_single_request`: a successful first fetch at time 5,
followed one second later by a second call, which is served from cache. -/
theorem c3_ttl_single_request_w :
    ¬((fetch_cf_problems false 5 respA ⟨0, []⟩).requested = true ∧
      (fetch_cf_problems false 6 respBad
          (fetch_cf_problems false 5 respA ⟨0, []⟩).cache).requested = true) :=
  c3_ttl_single_request 5 6 respA respBad ⟨0, []⟩ (by decide)
    (fun _ => ⟨rfl, rfl, by decide⟩)

/-- C7 as stated ("for every cache state ... no duplicate elements") is false:
if the cached catalog itself contains a duplicate record, the selection can
return it twice.  Here the cache holds `[pA, pA]` (fresh, so no fetch), the
shuffle leaves the order unchanged, and the call returns `[pA, pA]`. -/
theorem c7_duplicates_cex :
    (filter_problems (fun l => l) (some "rating") (some 1200) none none 3 0 respBad
        ⟨0, [pA, pA]⟩).result = .ok [pA, pA] ∧ ¬ ([pA, pA].Nodup) :=
  ⟨rfl, by decide⟩

/-- C7 (amended): `select(by-rating, rating=1200, count=3)` returns, for every
cache state and every shuffle outcome, a list of problems all with rating
exactly 1200, of length at most 3, each drawn from the post-fetch catalog,
with no duplicates PROVIDED the catalog itself has none (the sample is without
replacement), and equal (up to order) to the full match set whenever at most
3 problems match. -/
theorem c7_select_by_rating (π : List Problem → List Problem)
    (hπ : ∀ l, (π l).Perm l) (now : Nat) (resp : HttpResp) (c : CFCache) :
    ∃ l, (filter_problems π (some "rating") (some 1200) none none 3 now resp c).result
        = .ok l ∧
      (∀ p, p ∈ l → p.rating = some 1200) ∧
      l.length ≤ 3 ∧
      (∀ p, p ∈ l → p ∈ (fetch_cf_problems false now resp c).result) ∧
      ((fetch_cf_problems false now resp c).result.Nodup → l.Nodup) ∧
      (((fetch_cf_problems false now resp c).result.filter
          (fun p => decide (p.rating = some 1200))).length ≤ 3 →
        l.Perm ((fetch_cf_problems false now resp c).result.filter
          (fun p => decide (p.rating = some 1200)))) := by
  refine ⟨(π ((fetch_cf_problems false now resp c).result.filter
      (fun p => decide (p.rating = some 1200)))).take 3, ?_, ?_, ?_, ?_, ?_, ?_⟩
  · rw [filter_mode_rating]
  · intro p hp
    have hm := (hπ _).mem_iff.mp (List.mem_of_mem_take hp)
    have := (List.mem_filter.mp hm).2
    simpa using this
  · rw [List.length_take]; exact min_le_left _ _
  · intro p hp
    have hm := (hπ _).mem_iff.mp (List.mem_of_mem_take hp)
    exact (List.filter_sublist _).subset hm
  · intro hnd
    have hfil : ((fetch_cf_problems false now resp c).result.filter
        (fun p => decide (p.rating = some 1200))).Nodup := hnd.sublist (List.filter_sublist _)
    have hπnd := (hπ _).nodup_iff.mpr hfil
    exact hπnd.sublist (List.take_sublist _ _)
  · intro hlen
    have hle : (π ((fetch_cf_problems false now resp c).result.filter
        (fun p => decide (p.rating = some 1200)))).length ≤ 3 := by
      rw [(hπ _).length_eq]; exact hlen
    rw [List.take_of_length_le hle]
    exact hπ _

/-- Witness for `c7_select_by_rating` with the identity shuffle on a concrete
fresh cache. -/
theorem c7_select_by_rating_w :
    ∃ l, (filter_problems (fun l => l) (some "rating") (some 1200) none none 3 0 respBad
        cGood).result = .ok l ∧
      (∀ p, p ∈ l → p.rating = some 1200) ∧
      l.length ≤ 3 ∧
      (∀ p, p ∈ l → p ∈ (fetch_cf_problems false 0 respBad cGood).result) ∧
      ((fetch_cf_problems false 0 respBad cGood).result.Nodup → l.Nodup) ∧
      (((fetch_cf_problems false 0 respBad cGood).result.filter
          (fun p => decide (p.rating = some 1200))).length ≤ 3 →
        l.Perm ((fetch_cf_problems false 0 respBad cGood).result.filter
          (fun p => decide (p.rating = some 1200)))) :=
  c7_select_by_rating (fun l => l) (fun l => List.Perm.refl l) 0 respBad cGood

/-- C9 as stated is false in its first half: a recognized-mode call on a STALE
cache does change the process-wide cached list, because the embedded fetch
refreshes it wholesale.  Cache last refreshed at time 0 holding `[pA]`; at
time 5000 a mode-"rating" call fetches `[pB]` and the cache now holds `[pB]`. -/
theorem c9_stale_refresh_cex :
    (filter_problems (fun l => l) (some "rating") none none none 5 5000 ⟨200, "OK", [pB]⟩
        ⟨0, [pA]⟩).cache.problems ≠ [pA] := by decide

/-- C9 (amended): relative to the cache state left by the embedded fetch
(which may itself replace the list wholesale when the cache is stale or
empty), a call with one of the four recognized modes leaves the cached list
unchanged — the filter builds a fresh list — while a call with any other mode
shuffles the cached list itself in place: same elements up to permutation,
same timestamp (the cache is untouched only when the fetch failed, since the
failure branch returns a fresh empty list).  On a fresh nonempty cache the
post-fetch cache is the original cache. -/
theorem c9_filter_frame (π : List Problem → List Problem) (hπ : ∀ l, (π l).Perm l)
    (mode : Option String) (rating : Option Int) (tag idx : Option String)
    (cnt now : Nat) (resp : HttpResp) (c : CFCache) :
    ((mode = some "rating" ∨ mode = some "tag" ∨ mode = some "index" ∨
        mode = some "rating_tag") →
      (filter_problems π mode rating tag idx cnt now resp c).cache
          = postFetchCache now resp c) ∧
    (mode ≠ some "rating" → mode ≠ some "tag" → mode ≠ some "index" →
      mode ≠ some "rating_tag" →
      (filter_problems π mode rating tag idx cnt now resp c).cache.timestamp
          = (postFetchCache now resp c).timestamp ∧
      (filter_problems π mode rating tag idx cnt now resp c).cache.problems.Perm
          (postFetchCache now resp c).problems) ∧
    (c.problems ≠ [] → now - c.timestamp < CF_CACHE_TTL → postFetchCache now resp c = c) := by
  refine ⟨fun h => filter_cache_recognized π mode rating tag idx cnt now resp c h,
    fun h1 h2 h3 h4 => ?_, fun hne hlt => ?_⟩
  · rw [filter_mode_other π mode rating tag idx cnt now resp c h1 h2 h3 h4]
    unfold postFetchCache
    by_cases ha : (fetch_cf_problems false now resp c).aliased = true
    · rw [if_pos ha]
      exact ⟨rfl, by rw [fetch_aliased_result false now resp c ha]; exact hπ _⟩
    · rw [if_neg ha]
      exact ⟨rfl, List.Perm.refl _⟩
  · unfold postFetchCache fetch_cf_problems
    rw [if_pos ⟨hne, rfl, hlt⟩]

/-- Witness for `c9_filter_frame` with the identity shuffle and mode `None`
(unrecognized). -/
theorem c9_filter_frame_w :
    (filter_problems (fun l => l) none none none none 5 0 respBad cGood).cache.timestamp
        = (postFetchCache 0 respBad cGood).timestamp ∧
    (filter_problems (fun l => l) none none none none 5 0 respBad cGood).cache.problems.Perm
        (postFetchCache 0 respBad cGood).problems ∧
    postFetchCache 0 respBad cGood = cGood :=
  ⟨((c9_filter_frame (fun l => l) (fun l => List.Perm.refl l) none none none none 5 0
      respBad cGood).2.1 (by decide) (by decide) (by decide) (by decide)).1,
    ((c9_filter_frame (fun l => l) (fun l => List.Perm.refl l) none none none none 5 0
      respBad cGood).2.1 (by decide) (by decide) (by decide) (by decide)).2,
    (c9_filter_frame (fun l => l) (fun l => List.Perm.refl l) none none none none 5 0
      respBad cGood).2.2 (by decide) (by decide)⟩

/-- One row of the `users` table (for the single chat id under study):
`step`, `mode`, `rating`, `tag`, `index_letter`, `count`.  SQLite NULLs are
`none`.  (`count` is present in the schema but never written by any code
path.) -/
structure UserState where
  step : Option String
  mode : Option String
  rating : Option Int
  tag : Option String
  index_letter : Option String
  count : Option Int
deriving DecidableEq

/-- One row of the `history` table for this chat: the fields of
`db_add_history(chat_id, p)`. -/
structure HistoryEntry where
  contestId : Int
  problem_index : String
  name : String
  rating : Option Int
deriving DecidableEq

/-- Identities of the outbound messages the bot sends (`send_message` call
sites); the concrete wording, keyboards and markdown are presentation and
not modelled.  `chooseMode` is the `start` menu, the `prompt...` values are
the per-step input prompts, the `invalid...` values the re-prompts, and
`redirect` the "Use /start to choose a mode again." fallback. -/
inductive Msg
  | chooseMode
  | promptRating
  | promptTag
  | promptIndex
  | promptRTRating
  | promptRTTag
  | promptCount
  | invalidRating
  | invalidRTRating
  | invalidCount
  | redirect
  | noHistory
  | historyList (rows : List HistoryEntry)
  | problemMsg (p : Problem)
  | noProblems
  | doneMsg
deriving DecidableEq

/-- The state a webhook request reads and writes: the user row (none before
first contact), the history rows in insertion order, the module cache
`CF_CACHE`, plus the trace of attempted sends (`outbox`) and the number of
send attempts so far (`sent`, the index used to look up each send's
outcome). -/
structure ExecSt where
  user : Option UserState
  history : List HistoryEntry
  cache : CFCache
  outbox : List Msg
  sent : Nat
deriving DecidableEq

/-- Effect on the state of attempting one `send_message` call. -/
def push (m : Msg) (st : ExecSt) : ExecSt :=
  { st with outbox := st.outbox ++ [m], sent := st.sent + 1 }

/-- `send_message` (main.py lines 127-131): the HTTP response of
`requests.post` is never inspected, so an error status is silently ignored;
but the call can raise (timeout, connection failure), in which case the
exception propagates — modelled as `.error`.  `sendOut n` says whether the
n-th send attempt of the request returns without raising. -/
def trySend (sendOut : Nat → Bool) (m : Msg) (st : ExecSt) : Except ExecSt ExecSt :=
  if sendOut st.sent then .ok (push m st) else .error (push m st)

/-- `db_upsert_user(chat_id, step=s)` on an existing row. -/
def setStep (st : ExecSt) (s : Option String) : ExecSt :=
  { st with user := st.user.map fun u => { u with step := s } }

/-- The all-NULL user row inserted on first contact. -/
def freshUser : UserState := ⟨none, none, none, none, none, none⟩

/-- `db_upsert_user(chat_id, step=None, mode=None, rating=None, tag=None,
index_letter=None)` on an existing row. -/
def clearFlow (u : UserState) : UserState :=
  { u with step := none, mode := none, rating := none, tag := none, index_letter := none }

/-- `start(chat_id)` (main.py lines 137-145): reset (or create) the user row,
then send the mode menu. -/
def start (sendOut : Nat → Bool) (st : ExecSt) : Except ExecSt ExecSt :=
  let u : UserState :=
    match st.user with
    | none => freshUser
    | some u0 => clearFlow u0
  trySend sendOut .chooseMode { st with user := some u }

/-- `send_history(chat_id)` (main.py lines 147-157): the last 10 history rows
in reverse-chronological (here: reverse-insertion) order, or a "no history"
message. -/
def send_history (sendOut : Nat → Bool) (st : ExecSt) : Except ExecSt ExecSt :=
  let rows := st.history.reverse.take 10
  if rows = [] then trySend sendOut .noHistory st
  else trySend sendOut (.historyList rows) st

/-- The loop of `send_problems` (main.py lines 163-170): for each problem,
send its message and only then append the history row; finish with "Done!".
A raising send aborts the loop, skipping that problem's history write. -/
def send_problems_loop (sendOut : Nat → Bool) : List Problem → ExecSt → Except ExecSt ExecSt
  | [], st => trySend sendOut .doneMsg st
  | p :: ps, st =>
    match trySend sendOut (.problemMsg p) st with
    | .error e => .error e
    | .ok st1 =>
      send_problems_loop sendOut ps
        { st1 with history := st1.history ++ [⟨p.contestId, p.index, p.name, p.rating⟩] }

/-- `send_problems(chat_id, problems)` (main.py lines 159-170). -/
def send_problems (sendOut : Nat → Bool) (ps : List Problem) (st : ExecSt) :
    Except ExecSt ExecSt :=
  if ps = [] then trySend sendOut .noProblems st
  else send_problems_loop sendOut ps st

/-- Python `s.startswith(pre)` (list model). -/
def pyStartsWith (s pre : String) : Bool := s.data.take pre.data.length == pre.data

/-- `count = min(10, max(1, int(text)))` (main.py line 247). -/
def effectiveCount (text : String) : Nat := min 10 (max 1 (digitsToNat text))

/-- The send-then-set-step pattern of the recognized selection branches
(main.py lines 188-199): `send_message` first, `db_upsert_user(step=...)`
only afterwards — so a raising send leaves the mode written but the step
unchanged. -/
def sendThenStep (sendOut : Nat → Bool) (m : Msg) (s : Option String) (st : ExecSt) :
    Except ExecSt ExecSt :=
  match trySend sendOut m st with
  | .error e => .error e
  | .ok st2 => .ok (setStep st2 s)

/-- The `callback_query` branch of `webhook` (main.py lines 180-200): for a
`mode_<name>` payload, first upsert `mode` (creating the row if absent), then
— for the four recognized names — send the first prompt and only afterwards
upsert `step`.  For `action.startswith("mode_")`, `action.split("_", 1)[1]`
is `action[5:]`, since the first underscore of such a string is at offset 4. -/
def handle_callback (sendOut : Nat → Bool) (action : String) (st : ExecSt) :
    Except ExecSt ExecSt :=
  if pyStartsWith action "mode_" then
    let mode := String.mk (action.data.drop 5)
    let u1 : UserState :=
      match st.user with
      | none => { freshUser with mode := some mode }
      | some u0 => { u0 with mode := some mode }
    let st1 := { st with user := some u1 }
    if mode = "rating" then sendThenStep sendOut .promptRating (some "await_rating") st1
    else if mode = "tag" then sendThenStep sendOut .promptTag (some "await_tag") st1
    else if mode = "index" then sendThenStep sendOut .promptIndex (some "await_index") st1
    else if mode = "rating_tag" then
      sendThenStep sendOut .promptRTRating (some "await_rating_tag_rating") st1
    else .ok st1
  else .ok st

/-- The tail of the await_count branch (main.py lines 252-254): dispatch the
problems (messages plus history rows) and, only if that completes without a
raising send, reset the user row. -/
def dispatch_reset (sendOut : Nat → Bool) (u : UserState) (problems : List Problem)
    (st : ExecSt) : Except ExecSt ExecSt :=
  match send_problems sendOut problems st with
  | .error e => .error e
  | .ok st2 => .ok { st2 with user := some (clearFlow u) }

/-- The text-message branch of `webhook` (main.py lines 203-259): strip the
text, treat an unknown user as an implicit `/start`, short-circuit the
commands, then dispatch on the stored `step`.  In every input branch the
source upserts the user row BEFORE sending the next prompt; in the
`await_count` branch it filters — where the embedded `requests.get` /
`resp.json()` may itself raise, escaping the handler before any cache write
or send — then dispatches the problems and only then resets the row. -/
def handle_message (sendOut : Nat → Bool) (π : List Problem → List Problem)
    (now : Nat) (remote : RemoteOut) (raw : String) (st : ExecSt) : Except ExecSt ExecSt :=
  let text := pyStrip raw
  match st.user with
  | none => start sendOut st
  | some u =>
    if text = "/start" then start sendOut st
    else if text = "/history" then send_history sendOut st
    else if u.step = some "await_rating" then
      if pyIsDigit text then
        trySend sendOut .promptCount
          { st with user := some { u with rating := some (digitsToNat text : Int), step := some "await_count" } }
      else trySend sendOut .invalidRating st
    else if u.step = some "await_tag" then
      trySend sendOut .promptCount
        { st with user := some { u with tag := some (pyLower text), step := some "await_count" } }
    else if u.step = some "await_index" then
      trySend sendOut .promptCount
        { st with user := some { u with index_letter := some (pyUpper text), step := some "await_count" } }
    else if u.step = some "await_rating_tag_rating" then
      if pyIsDigit text then
        trySend sendOut .promptRTTag
          { st with user := some { u with rating := some (digitsToNat text : Int), step := some "await_rating_tag_tag" } }
      else trySend sendOut .invalidRTRating st
    else if u.step = some "await_rating_tag_tag" then
      trySend sendOut .promptCount
        { st with user := some { u with tag := some (pyLower text), step := some "await_count" } }
    else if u.step = some "await_count" then
      if pyIsDigit text then
        match filter_problems_io π u.mode u.rating u.tag u.index_letter
            (effectiveCount text) now remote st.cache with
        | .error _ => .error st
        | .ok fr =>
          match fr.result with
          | .error _ => .error { st with cache := fr.cache }
          | .ok problems => dispatch_reset sendOut u problems { st with cache := fr.cache }
      else trySend sendOut .invalidCount st
    else trySend sendOut .redirect st

/-- An inbound webhook payload, as the handler distinguishes it: a
`callback_query` with its `data` string, or a `message` with its raw text. -/
inductive Event
  | callback (action : String)
  | message (text : String)
deriving DecidableEq

/-- `webhook()` (main.py lines 173-261).  `none` stands for a payload that is
neither a callback query nor a text message (including `not data`); the
handler acknowledges it untouched. -/
def webhook (sendOut : Nat → Bool) (π : List Problem → List Problem)
    (now : Nat) (remote : RemoteOut) (ev : Option Event) (st : ExecSt) :
    Except ExecSt ExecSt :=
  match ev with
  | none => .ok st
  | some (.callback a) => handle_callback sendOut a st
  | some (.message t) => handle_message sendOut π now remote t st

/-- The durable state after a request: on `.ok` the handler returned 200, on
`.error` Flask answered 500, but every SQLite write already committed (and
every send already attempted) persists. -/
def runState : Except ExecSt ExecSt → ExecSt
  | .ok st => st
  | .error st => st

/-- Whether the handler acknowledged with 200 (`jsonify(ok=True)`). -/
def respondedOk : Except ExecSt ExecSt → Bool
  | .ok _ => true
  | .error _ => false

/-- The process's initial state: no user row, empty history, the initial
`CF_CACHE`. -/
def initSt : ExecSt := ⟨none, [], ⟨0, []⟩, [], 0⟩

/-- States reachable by webhook requests whose send-outcome functions satisfy
`P`; each request may come with its own clock value, remote outcome (a
delivered response or a raising catalog call) and shuffle outcome. -/
inductive ReachableUnder (P : (Nat → Bool) → Prop) : ExecSt → Prop
  | init : ReachableUnder P initSt
  | step (sendOut : Nat → Bool) (π : List Problem → List Problem) (now : Nat)
      (remote : RemoteOut) (ev : Option Event) {st : ExecSt} :
      P sendOut → ReachableUnder P st →
      ReachableUnder P (runState (webhook sendOut π now remote ev st))

/-- States reachable with arbitrary send outcomes. -/
def Reachable : ExecSt → Prop := ReachableUnder fun _ => True

/-- States reachable when every outbound send returns without raising. -/
def ReachableOk : ExecSt → Prop := ReachableUnder fun sendOut => ∀ n, sendOut n = true

/-- Step a reachability proof by one request with a computed next state. -/
lemma reach_next {st st' : ExecSt} (h : Reachable st) (sendOut : Nat → Bool)
    (π : List Problem → List Problem) (now : Nat) (remote : RemoteOut) (ev : Option Event)
    (he : runState (webhook sendOut π now remote ev st) = st') : Reachable st' :=
  he ▸ ReachableUnder.step sendOut π now remote ev trivial h

/-- Step an all-sends-succeed reachability proof by one request. -/
lemma reachOk_next {st st' : ExecSt} (h : ReachableOk st)
    (π : List Problem → List Problem) (now : Nat) (remote : RemoteOut) (ev : Option Event)
    (he : runState (webhook (fun _ => true) π now remote ev st) = st') : ReachableOk st' :=
  he ▸ ReachableUnder.step (fun _ => true) π now remote ev (fun _ => rfl) h

/-- Either way the attempt went, the durable state after a `trySend` is the
pushed state. -/
lemma runState_trySend (sendOut : Nat → Bool) (m : Msg) (st : ExecSt) :
    runState (trySend sendOut m st) = push m st := by
  unfold trySend
  split <;> rfl

/-- With all sends succeeding, `trySend` returns. -/
lemma trySend_allOk (m : Msg) (st : ExecSt) :
    trySend (fun _ => true) m st = .ok (push m st) := rfl

/-- The problem-dispatch loop never touches the user row. -/
lemma send_problems_loop_user (sendOut : Nat → Bool) (ps : List Problem) (st : ExecSt) :
    (runState (send_problems_loop sendOut ps st)).user = st.user := by
  induction ps generalizing st with
  | nil => rw [send_problems_loop, runState_trySend]; rfl
  | cons p ps ih =>
    rw [send_problems_loop]
    rcases hts : trySend sendOut (.problemMsg p) st with e | st1
    · have h1 : e = push (.problemMsg p) st := by
        have h2 := runState_trySend sendOut (.problemMsg p) st
        rw [hts] at h2
        exact h2
      show e.user = st.user
      rw [h1]
      rfl
    · have h1 : st1 = push (.problemMsg p) st := by
        have h2 := runState_trySend sendOut (.problemMsg p) st
        rw [hts] at h2
        exact h2
      rw [ih]
      show st1.user = st.user
      rw [h1]
      rfl

/-- `send_problems` never touches the user row. -/
lemma send_problems_user (sendOut : Nat → Bool) (ps : List Problem) (st : ExecSt) :
    (runState (send_problems sendOut ps st)).user = st.user := by
  unfold send_problems
  split
  · rw [runState_trySend]; rfl
  · exact send_problems_loop_user sendOut ps st

/-- With all sends succeeding, the dispatch loop returns, and with the user
row untouched. -/
lemma send_problems_loop_allOk (ps : List Problem) (st : ExecSt) :
    ∃ st2, send_problems_loop (fun _ => true) ps st = .ok st2 ∧ st2.user = st.user := by
  induction ps generalizing st with
  | nil => exact ⟨push .doneMsg st, rfl, rfl⟩
  | cons p ps ih =>
    rw [send_problems_loop, trySend_allOk]
    obtain ⟨st2, h2, hu2⟩ := ih
      { push (.problemMsg p) st with
          history := (push (.problemMsg p) st).history ++ [⟨p.contestId, p.index, p.name, p.rating⟩] }
    exact ⟨st2, h2, hu2⟩

/-- With all sends succeeding, `send_problems` returns with the user row
untouched. -/
lemma send_problems_allOk (ps : List Problem) (st : ExecSt) :
    ∃ st2, send_problems (fun _ => true) ps st = .ok st2 ∧ st2.user = st.user := by
  unfold send_problems
  split
  · exact ⟨push .noProblems st, rfl, rfl⟩
  · exact send_problems_loop_allOk ps st

/-- With all sends succeeding, the dispatch-then-reset tail returns with the
user row reset. -/
lemma dispatch_reset_allOk (u : UserState) (ps : List Problem) (st : ExecSt) :
    ∃ st2, dispatch_reset (fun _ => true) u ps st = .ok st2 ∧
      st2.user = some (clearFlow u) := by
  unfold dispatch_reset
  obtain ⟨st2, h2, hu2⟩ := send_problems_allOk ps st
  rw [h2]
  exact ⟨_, rfl, rfl⟩

/-- An all-digit string is neither of the two commands. -/
lemma pyIsDigit_not_cmd (s : String) (h : pyIsDigit s = true) :
    s ≠ "/start" ∧ s ≠ "/history" := by
  constructor <;> rintro rfl <;> exact absurd h (by decide)

/-- The user row after the "mode_rating" selection event has been answered. -/
def uAwaitRating : UserState := ⟨some "await_rating", some "rating", none, none, none, none⟩

/-- Process state after one successful "mode_rating" selection event from the
initial state. -/
def stAwaitRating : ExecSt := ⟨some uAwaitRating, [], ⟨0, []⟩, [.promptRating], 1⟩

/-- The user row after additionally answering rating "1200": at the count
step of a by-rating flow, with `tag` and `index_letter` still NULL. -/
def uAwaitCount : UserState := ⟨some "await_count", some "rating", some 1200, none, none, none⟩

/-- Process state at the count step of a by-rating flow. -/
def stAwaitCount : ExecSt := ⟨some uAwaitCount, [], ⟨0, []⟩, [.promptRating, .promptCount], 2⟩

/-- `stAwaitRating` is reachable (callback "mode_rating" from the initial
state, all sends succeeding). -/
lemma reach_stAwaitRating : Reachable stAwaitRating :=
  reach_next (ReachableUnder.init) (fun _ => true) (fun l => l) 0 (RemoteOut.delivers respBad)
    (some (.callback "mode_rating")) rfl

/-- `stAwaitCount` is reachable (then text "1200"). -/
lemma reach_stAwaitCount : Reachable stAwaitCount :=
  reach_next reach_stAwaitRating (fun _ => true) (fun l => l) 0 (RemoteOut.delivers respBad)
    (some (.message "1200")) rfl

/-- C1 as stated is false: a mode-selection event does NOT clear the prior
filter parameters.  From the reachable state `stAwaitCount` (a by-rating flow
abandoned at its count step with `rating = 1200`), the selection event
"mode_tag" produces a user row with the new mode and step but with
`rating` still `1200` instead of NULL. -/
theorem c1_selection_no_clear_cex :
    ∃ st : ExecSt, Reachable st ∧
      ∃ u' : UserState,
        (runState (webhook (fun _ => true) (fun l => l) 0 (RemoteOut.delivers respBad)
            (some (.callback "mode_tag")) st)).user = some u' ∧
        u'.mode = some "tag" ∧ u'.step = some "await_tag" ∧ u'.rating = some 1200 :=
  ⟨stAwaitCount, reach_stAwaitCount,
    ⟨some "await_tag", some "tag", some 1200, none, none, none⟩, rfl, rfl, rfl, rfl⟩

/-- C1 (amended): for each of the four recognized selection events, with the
prompt send succeeding, the controller sets `mode`, transitions `step` to the
chosen mode's first input step and sends that mode's prompt — but leaves
`rating`, `tag` and `index_letter` exactly as they were (no clearing
happens; the result row is `u` with only `mode` and `step` changed). -/
theorem c1_selection_event (st : ExecSt) (u : UserState)
    (π : List Problem → List Problem) (now : Nat) (remote : RemoteOut)
    (hu : st.user = some u) :
    webhook (fun _ => true) π now remote (some (.callback "mode_rating")) st =
      .ok (push .promptRating
        { st with user := some { u with mode := some "rating", step := some "await_rating" } }) ∧
    webhook (fun _ => true) π now remote (some (.callback "mode_tag")) st =
      .ok (push .promptTag
        { st with user := some { u with mode := some "tag", step := some "await_tag" } }) ∧
    webhook (fun _ => true) π now remote (some (.callback "mode_index")) st =
      .ok (push .promptIndex
        { st with user := some { u with mode := some "index", step := some "await_index" } }) ∧
    webhook (fun _ => true) π now remote (some (.callback "mode_rating_tag")) st =
      .ok (push .promptRTRating
        { st with user := some { u with mode := some "rating_tag", step := some "await_rating_tag_rating" } }) := by
  obtain ⟨uo, hist, cache, ob, k⟩ := st
  obtain ⟨us, um, ur, ut, ui, uc⟩ := u
  cases hu
  exact ⟨rfl, rfl, rfl, rfl⟩

/-- Witness for `c1_selection_event` at the reachable state `stAwaitCount`. -/
theorem c1_selection_event_w :
    webhook (fun _ => true) (fun l => l) 0 (RemoteOut.delivers respBad) (some (.callback "mode_rating")) stAwaitCount =
      .ok (push .promptRating
        { stAwaitCount with user := some { uAwaitCount with mode := some "rating", step := some "await_rating" } }) :=
  (c1_selection_event stAwaitCount uAwaitCount (fun l => l) 0 (RemoteOut.delivers respBad) rfl).1

/-- C5 as stated ("for every text event at awaiting-count with a non-digit
payload, state is unchanged and a re-prompt is sent") is false for the
command payloads: "/start" is a non-digit payload, yet it resets the user row
(changing it) and sends the mode menu, not a re-prompt. -/
theorem c5_command_cex :
    ∃ st : ExecSt, Reachable st ∧
      (∃ u, st.user = some u ∧ u.step = some "await_count") ∧
      pyIsDigit (pyStrip "/start") = false ∧
      (runState (webhook (fun _ => true) (fun l => l) 0 (RemoteOut.delivers respBad)
          (some (.message "/start")) st)).user ≠ st.user ∧
      (runState (webhook (fun _ => true) (fun l => l) 0 (RemoteOut.delivers respBad)
          (some (.message "/start")) st)).outbox = st.outbox ++ [.chooseMode] :=
  ⟨stAwaitCount, reach_stAwaitCount, ⟨uAwaitCount, rfl, rfl⟩, by decide, by decide, by decide⟩

/-- C5 (amended): for a text event at the awaiting-count step whose stripped
payload is neither "/start" nor "/history": a non-digit payload leaves the
user row (and the whole durable state except the send trace) unchanged and
sends the "Please enter a valid number." re-prompt; and the effective count
for a digit payload is `min(10, max(1, int(text)))`, so "0" yields 1, "99"
yields 10 and "5" yields 5. -/
theorem c5_count_validation (π : List Problem → List Problem) (now : Nat)
    (remote : RemoteOut) (st : ExecSt) (u : UserState) (t : String)
    (hu : st.user = some u) (hs : u.step = some "await_count")
    (hns : pyStrip t ≠ "/start") (hnh : pyStrip t ≠ "/history")
    (hd : pyIsDigit (pyStrip t) = false) :
    webhook (fun _ => true) π now remote (some (.message t)) st = .ok (push .invalidCount st) ∧
    effectiveCount "0" = 1 ∧ effectiveCount "99" = 10 ∧ effectiveCount "5" = 5 := by
  refine ⟨?_, by decide, by decide, by decide⟩
  obtain ⟨uo, hist, cache, ob, k⟩ := st
  cases hu
  simp only [webhook, handle_message]
  rw [if_neg hns, if_neg hnh, hs, hd]
  rfl

/-- Witness for `c5_count_validation`: payload "x" at `stAwaitCount`. -/
theorem c5_count_validation_w :
    webhook (fun _ => true) (fun l => l) 0 (RemoteOut.delivers respBad) (some (.message "x")) stAwaitCount =
      .ok (push .invalidCount stAwaitCount) ∧
    effectiveCount "0" = 1 ∧ effectiveCount "99" = 10 ∧ effectiveCount "5" = 5 :=
  c5_count_validation (fun l => l) 0 (RemoteOut.delivers respBad) stAwaitCount uAwaitCount "x" rfl rfl
    (by decide) (by decide) (by decide)

/-- Generic reduction of the "mode_rating" selection event with a successful
prompt send (the user row is created when absent). -/
lemma cb_mode_rating (π : List Problem → List Problem) (now : Nat) (remote : RemoteOut)
    (st : ExecSt) :
    webhook (fun _ => true) π now remote (some (.callback "mode_rating")) st =
      .ok (push .promptRating
        { st with user := some { st.user.getD freshUser with mode := some "rating", step := some "await_rating" } }) := by
  obtain ⟨uo, hist, cache, ob, k⟩ := st
  cases uo <;> rfl

/-- Generic reduction of the "mode_tag" selection event. -/
lemma cb_mode_tag (π : List Problem → List Problem) (now : Nat) (remote : RemoteOut)
    (st : ExecSt) :
    webhook (fun _ => true) π now remote (some (.callback "mode_tag")) st =
      .ok (push .promptTag
        { st with user := some { st.user.getD freshUser with mode := some "tag", step := some "await_tag" } }) := by
  obtain ⟨uo, hist, cache, ob, k⟩ := st
  cases uo <;> rfl

/-- Generic reduction of the "mode_index" selection event. -/
lemma cb_mode_index (π : List Problem → List Problem) (now : Nat) (remote : RemoteOut)
    (st : ExecSt) :
    webhook (fun _ => true) π now remote (some (.callback "mode_index")) st =
      .ok (push .promptIndex
        { st with user := some { st.user.getD freshUser with mode := some "index", step := some "await_index" } }) := by
  obtain ⟨uo, hist, cache, ob, k⟩ := st
  cases uo <;> rfl

/-- Generic reduction of the "mode_rating_tag" selection event. -/
lemma cb_mode_rating_tag (π : List Problem → List Problem) (now : Nat) (remote : RemoteOut)
    (st : ExecSt) :
    webhook (fun _ => true) π now remote (some (.callback "mode_rating_tag")) st =
      .ok (push .promptRTRating
        { st with user := some { st.user.getD freshUser with mode := some "rating_tag", step := some "await_rating_tag_rating" } }) := by
  obtain ⟨uo, hist, cache, ob, k⟩ := st
  cases uo <;> rfl

/-- Reduction of a digit answer at the await_rating step. -/
lemma msg_await_rating (π : List Problem → List Problem) (now : Nat) (remote : RemoteOut)
    (st : ExecSt) (u : UserState) (t : String) (hu : st.user = some u)
    (hs : u.step = some "await_rating") (hd : pyIsDigit (pyStrip t) = true) :
    webhook (fun _ => true) π now remote (some (.message t)) st =
      .ok (push .promptCount
        { st with user := some { u with rating := some (digitsToNat (pyStrip t) : Int), step := some "await_count" } }) := by
  obtain ⟨hns, hnh⟩ := pyIsDigit_not_cmd _ hd
  obtain ⟨uo, hist, cache, ob, k⟩ := st
  cases hu
  simp only [webhook, handle_message]
  rw [if_neg hns, if_neg hnh, hs, hd]
  rfl

/-- Reduction of a (non-command) answer at the await_tag step. -/
lemma msg_await_tag (π : List Problem → List Problem) (now : Nat) (remote : RemoteOut)
    (st : ExecSt) (u : UserState) (t : String) (hu : st.user = some u)
    (hs : u.step = some "await_tag") (hns : pyStrip t ≠ "/start")
    (hnh : pyStrip t ≠ "/history") :
    webhook (fun _ => true) π now remote (some (.message t)) st =
      .ok (push .promptCount
        { st with user := some { u with tag := some (pyLower (pyStrip t)), step := some "await_count" } }) := by
  obtain ⟨uo, hist, cache, ob, k⟩ := st
  cases hu
  simp only [webhook, handle_message]
  rw [if_neg hns, if_neg hnh, hs]
  rfl

/-- Reduction of a (non-command) answer at the await_index step. -/
lemma msg_await_index (π : List Problem → List Problem) (now : Nat) (remote : RemoteOut)
    (st : ExecSt) (u : UserState) (t : String) (hu : st.user = some u)
    (hs : u.step = some "await_index") (hns : pyStrip t ≠ "/start")
    (hnh : pyStrip t ≠ "/history") :
    webhook (fun _ => true) π now remote (some (.message t)) st =
      .ok (push .promptCount
        { st with user := some { u with index_letter := some (pyUpper (pyStrip t)), step := some "await_count" } }) := by
  obtain ⟨uo, hist, cache, ob, k⟩ := st
  cases hu
  simp only [webhook, handle_message]
  rw [if_neg hns, if_neg hnh, hs]
  rfl

/-- Reduction of a digit answer at the await_rating_tag_rating step. -/
lemma msg_await_rtr (π : List Problem → List Problem) (now : Nat) (remote : RemoteOut)
    (st : ExecSt) (u : UserState) (t : String) (hu : st.user = some u)
    (hs : u.step = some "await_rating_tag_rating") (hd : pyIsDigit (pyStrip t) = true) :
    webhook (fun _ => true) π now remote (some (.message t)) st =
      .ok (push .promptRTTag
        { st with user := some { u with rating := some (digitsToNat (pyStrip t) : Int), step := some "await_rating_tag_tag" } }) := by
  obtain ⟨hns, hnh⟩ := pyIsDigit_not_cmd _ hd
  obtain ⟨uo, hist, cache, ob, k⟩ := st
  cases hu
  simp only [webhook, handle_message]
  rw [if_neg hns, if_neg hnh, hs, hd]
  rfl

/-- Reduction of a (non-command) answer at the await_rating_tag_tag step. -/
lemma msg_await_rtt (π : List Problem → List Problem) (now : Nat) (remote : RemoteOut)
    (st : ExecSt) (u : UserState) (t : String) (hu : st.user = some u)
    (hs : u.step = some "await_rating_tag_tag") (hns : pyStrip t ≠ "/start")
    (hnh : pyStrip t ≠ "/history") :
    webhook (fun _ => true) π now remote (some (.message t)) st =
      .ok (push .promptCount
        { st with user := some { u with tag := some (pyLower (pyStrip t)), step := some "await_count" } }) := by
  obtain ⟨uo, hist, cache, ob, k⟩ := st
  cases hu
  simp only [webhook, handle_message]
  rw [if_neg hns, if_neg hnh, hs]
  rfl

/-- The filter result is a value (no exception) as long as mode "rating_tag"
comes with a non-null tag. -/
lemma filter_result_ok (π : List Problem → List Problem) (mode : Option String)
    (rating : Option Int) (tag idx : Option String) (cnt now : Nat) (resp : HttpResp)
    (c : CFCache) (h : mode = some "rating_tag" → ∃ t, tag = some t) :
    ∃ L, (filter_problems π mode rating tag idx cnt now resp c).result = .ok L := by
  by_cases h1 : mode = some "rating"
  · subst h1; exact ⟨_, rfl⟩
  by_cases h2 : mode = some "tag"
  · subst h2; exact ⟨_, rfl⟩
  by_cases h3 : mode = some "index"
  · subst h3; exact ⟨_, rfl⟩
  by_cases h4 : mode = some "rating_tag"
  · obtain ⟨t, ht⟩ := h h4
    subst h4; subst ht
    exact ⟨_, by rw [filter_mode_rating_tag]⟩
  · exact ⟨_, by rw [filter_mode_other π mode rating tag idx cnt now resp c h1 h2 h3 h4]⟩

/-- The filtering tail yields a value over any fetch outcome, as long as mode
"rating_tag" comes with a non-null tag. -/
lemma filter_from_result_ok (π : List Problem → List Problem) (mode : Option String)
    (rating : Option Int) (tag idx : Option String) (cnt : Nat) (fo : FetchOut)
    (h : mode = some "rating_tag" → ∃ t, tag = some t) :
    ∃ L, (filter_from π mode rating tag idx cnt fo).result = .ok L := by
  by_cases h1 : mode = some "rating"
  · subst h1; exact ⟨_, rfl⟩
  by_cases h2 : mode = some "tag"
  · subst h2; exact ⟨_, rfl⟩
  by_cases h3 : mode = some "index"
  · subst h3; exact ⟨_, rfl⟩
  by_cases h4 : mode = some "rating_tag"
  · obtain ⟨t, ht⟩ := h h4
    subst h4; subst ht
    refine ⟨(π (fo.result.filter
      (fun p => decide (p.rating = rating) && tagMatch t p))).take cnt, ?_⟩
    show (match ratingTagFilter rating (some t) fo.result with
      | .error e => (⟨.error e, fo.cache, fo.requested⟩ : FilterOut)
      | .ok l => ⟨.ok ((π l).take cnt), fo.cache, fo.requested⟩).result = _
    rw [ratingTagFilter_some]
  · refine ⟨(π fo.result).take cnt, ?_⟩
    unfold filter_from
    rw [if_neg h1, if_neg h2, if_neg h3, if_neg h4]

/-- Reduction of a digit answer at the await_count step when the filter does
not raise and all sends succeed: the flow completes and the user row is
reset. -/
lemma msg_await_count_ok (π : List Problem → List Problem) (now : Nat) (resp : HttpResp)
    (st : ExecSt) (u : UserState) (t : String) (hu : st.user = some u)
    (hs : u.step = some "await_count") (hd : pyIsDigit (pyStrip t) = true)
    (hok : ∃ L, (filter_problems π u.mode u.rating u.tag u.index_letter
      (effectiveCount (pyStrip t)) now resp st.cache).result = .ok L) :
    ∃ st2, webhook (fun _ => true) π now (RemoteOut.delivers resp) (some (.message t)) st
        = .ok st2 ∧
      st2.user = some (clearFlow u) := by
  obtain ⟨hns, hnh⟩ := pyIsDigit_not_cmd _ hd
  obtain ⟨L, hL⟩ := hok
  obtain ⟨uo, hist, cache, ob, k⟩ := st
  cases hu
  simp only [webhook, handle_message]
  rw [if_neg hns, if_neg hnh, hs, hd, filter_io_delivers]
  simp only [hL]
  exact dispatch_reset_allOk u L
    { user := some u, history := hist,
      cache := (filter_problems π u.mode u.rating u.tag u.index_letter
        (effectiveCount (pyStrip t)) now resp cache).cache,
      outbox := ob, sent := k }

/-- User row after the "mode_rating" selection event, in compositional form. -/
lemma webhook_user_cb_rating (π : List Problem → List Problem) (now : Nat)
    (remote : RemoteOut) (st : ExecSt) :
    (runState (webhook (fun _ => true) π now remote (some (.callback "mode_rating")) st)).user
      = some { st.user.getD freshUser with mode := some "rating", step := some "await_rating" } := by
  rw [cb_mode_rating]
  rfl

/-- User row after the "mode_tag" selection event. -/
lemma webhook_user_cb_tag (π : List Problem → List Problem) (now : Nat)
    (remote : RemoteOut) (st : ExecSt) :
    (runState (webhook (fun _ => true) π now remote (some (.callback "mode_tag")) st)).user
      = some { st.user.getD freshUser with mode := some "tag", step := some "await_tag" } := by
  rw [cb_mode_tag]
  rfl

/-- User row after the "mode_index" selection event. -/
lemma webhook_user_cb_index (π : List Problem → List Problem) (now : Nat)
    (remote : RemoteOut) (st : ExecSt) :
    (runState (webhook (fun _ => true) π now remote (some (.callback "mode_index")) st)).user
      = some { st.user.getD freshUser with mode := some "index", step := some "await_index" } := by
  rw [cb_mode_index]
  rfl

/-- User row after the "mode_rating_tag" selection event. -/
lemma webhook_user_cb_rt (π : List Problem → List Problem) (now : Nat)
    (remote : RemoteOut) (st : ExecSt) :
    (runState (webhook (fun _ => true) π now remote (some (.callback "mode_rating_tag")) st)).user
      = some { st.user.getD freshUser with mode := some "rating_tag", step := some "await_rating_tag_rating" } := by
  rw [cb_mode_rating_tag]
  rfl

/-- User row after a digit answer at await_rating. -/
lemma webhook_user_await_rating (π : List Problem → List Problem) (now : Nat)
    (remote : RemoteOut) (st : ExecSt) (u : UserState) (t : String) (hu : st.user = some u)
    (hs : u.step = some "await_rating") (hd : pyIsDigit (pyStrip t) = true) :
    (runState (webhook (fun _ => true) π now remote (some (.message t)) st)).user
      = some { u with rating := some (digitsToNat (pyStrip t) : Int), step := some "await_count" } := by
  rw [msg_await_rating π now remote st u t hu hs hd]
  rfl

/-- User row after a (non-command) answer at await_tag. -/
lemma webhook_user_await_tag (π : List Problem → List Problem) (now : Nat)
    (remote : RemoteOut) (st : ExecSt) (u : UserState) (t : String) (hu : st.user = some u)
    (hs : u.step = some "await_tag") (hns : pyStrip t ≠ "/start")
    (hnh : pyStrip t ≠ "/history") :
    (runState (webhook (fun _ => true) π now remote (some (.message t)) st)).user
      = some { u with tag := some (pyLower (pyStrip t)), step := some "await_count" } := by
  rw [msg_await_tag π now remote st u t hu hs hns hnh]
  rfl

/-- User row after a (non-command) answer at await_index. -/
lemma webhook_user_await_index (π : List Problem → List Problem) (now : Nat)
    (remote : RemoteOut) (st : ExecSt) (u : UserState) (t : String) (hu : st.user = some u)
    (hs : u.step = some "await_index") (hns : pyStrip t ≠ "/start")
    (hnh : pyStrip t ≠ "/history") :
    (runState (webhook (fun _ => true) π now remote (some (.message t)) st)).user
      = some { u with index_letter := some (pyUpper (pyStrip t)), step := some "await_count" } := by
  rw [msg_await_index π now remote st u t hu hs hns hnh]
  rfl

/-- User row after a digit answer at await_rating_tag_rating. -/
lemma webhook_user_await_rtr (π : List Problem → List Problem) (now : Nat)
    (remote : RemoteOut) (st : ExecSt) (u : UserState) (t : String) (hu : st.user = some u)
    (hs : u.step = some "await_rating_tag_rating") (hd : pyIsDigit (pyStrip t) = true) :
    (runState (webhook (fun _ => true) π now remote (some (.message t)) st)).user
      = some { u with rating := some (digitsToNat (pyStrip t) : Int), step := some "await_rating_tag_tag" } := by
  rw [msg_await_rtr π now remote st u t hu hs hd]
  rfl

/-- User row after a (non-command) answer at await_rating_tag_tag. -/
lemma webhook_user_await_rtt (π : List Problem → List Problem) (now : Nat)
    (remote : RemoteOut) (st : ExecSt) (u : UserState) (t : String) (hu : st.user = some u)
    (hs : u.step = some "await_rating_tag_tag") (hns : pyStrip t ≠ "/start")
    (hnh : pyStrip t ≠ "/history") :
    (runState (webhook (fun _ => true) π now remote (some (.message t)) st)).user
      = some { u with tag := some (pyLower (pyStrip t)), step := some "await_count" } := by
  rw [msg_await_rtt π now remote st u t hu hs hns hnh]
  rfl

/-- User row after a digit answer at await_count (a complete flow with all
sends succeeding): the row is reset. -/
lemma webhook_user_await_count (π : List Problem → List Problem) (now : Nat)
    (resp : HttpResp) (st : ExecSt) (u : UserState) (t : String) (hu : st.user = some u)
    (hs : u.step = some "await_count") (hd : pyIsDigit (pyStrip t) = true)
    (hmode : u.mode = some "rating_tag" → ∃ s, u.tag = some s) :
    (runState (webhook (fun _ => true) π now (RemoteOut.delivers resp)
        (some (.message t)) st)).user
      = some (clearFlow u) := by
  obtain ⟨st2, hw, hu2⟩ := msg_await_count_ok π now resp st u t hu hs hd
    (filter_result_ok π u.mode u.rating u.tag u.index_letter (effectiveCount (pyStrip t))
      now resp st.cache hmode)
  rw [hw]
  exact hu2

/-- C6: for each of the four modes, a completed flow — selection event, then
the mode's required inputs (digit strings for the rating steps, non-command
free text for the tag/index steps), then a digit count — with every outbound
send succeeding, ends with the user row reset: `step`, `mode`, `rating`,
`tag` and `index_letter` are all NULL.  Each request may come with its own
shuffle outcome, clock value and remote response. -/
theorem c6_flow_resets_state (st : ExecSt)
    (π1 π2 π3 π4 : List Problem → List Problem) (n1 n2 n3 n4 : Nat)
    (r1 r2 r3 r4 : HttpResp) (rt ct tg ix : String)
    (hrt : pyIsDigit (pyStrip rt) = true) (hct : pyIsDigit (pyStrip ct) = true)
    (htg1 : pyStrip tg ≠ "/start") (htg2 : pyStrip tg ≠ "/history")
    (hix1 : pyStrip ix ≠ "/start") (hix2 : pyStrip ix ≠ "/history") :
    (∃ u' : UserState,
      (runState (webhook (fun _ => true) π3 n3 (RemoteOut.delivers r3) (some (.message ct))
        (runState (webhook (fun _ => true) π2 n2 (RemoteOut.delivers r2) (some (.message rt))
          (runState (webhook (fun _ => true) π1 n1 (RemoteOut.delivers r1) (some (.callback "mode_rating"))
            st)))))).user = some u' ∧
      u'.step = none ∧ u'.mode = none ∧ u'.rating = none ∧ u'.tag = none ∧
      u'.index_letter = none) ∧
    (∃ u' : UserState,
      (runState (webhook (fun _ => true) π3 n3 (RemoteOut.delivers r3) (some (.message ct))
        (runState (webhook (fun _ => true) π2 n2 (RemoteOut.delivers r2) (some (.message tg))
          (runState (webhook (fun _ => true) π1 n1 (RemoteOut.delivers r1) (some (.callback "mode_tag"))
            st)))))).user = some u' ∧
      u'.step = none ∧ u'.mode = none ∧ u'.rating = none ∧ u'.tag = none ∧
      u'.index_letter = none) ∧
    (∃ u' : UserState,
      (runState (webhook (fun _ => true) π3 n3 (RemoteOut.delivers r3) (some (.message ct))
        (runState (webhook (fun _ => true) π2 n2 (RemoteOut.delivers r2) (some (.message ix))
          (runState (webhook (fun _ => true) π1 n1 (RemoteOut.delivers r1) (some (.callback "mode_index"))
            st)))))).user = some u' ∧
      u'.step = none ∧ u'.mode = none ∧ u'.rating = none ∧ u'.tag = none ∧
      u'.index_letter = none) ∧
    (∃ u' : UserState,
      (runState (webhook (fun _ => true) π4 n4 (RemoteOut.delivers r4) (some (.message ct))
        (runState (webhook (fun _ => true) π3 n3 (RemoteOut.delivers r3) (some (.message tg))
          (runState (webhook (fun _ => true) π2 n2 (RemoteOut.delivers r2) (some (.message rt))
            (runState (webhook (fun _ => true) π1 n1 (RemoteOut.delivers r1)
              (some (.callback "mode_rating_tag")) st)))))))).user = some u' ∧
      u'.step = none ∧ u'.mode = none ∧ u'.rating = none ∧ u'.tag = none ∧
      u'.index_letter = none) := by
  refine ⟨?_, ?_, ?_, ?_⟩
  · exact ⟨_, webhook_user_await_count π3 n3 r3 _ _ ct
      (webhook_user_await_rating π2 n2 (RemoteOut.delivers r2) _ _ rt (webhook_user_cb_rating π1 n1 (RemoteOut.delivers r1) st)
        rfl hrt)
      rfl hct (fun hm => absurd (show some "rating" = some "rating_tag" from hm)
        (by decide)), rfl, rfl, rfl, rfl, rfl⟩
  · exact ⟨_, webhook_user_await_count π3 n3 r3 _ _ ct
      (webhook_user_await_tag π2 n2 (RemoteOut.delivers r2) _ _ tg (webhook_user_cb_tag π1 n1 (RemoteOut.delivers r1) st)
        rfl htg1 htg2)
      rfl hct (fun hm => absurd (show some "tag" = some "rating_tag" from hm)
        (by decide)), rfl, rfl, rfl, rfl, rfl⟩
  · exact ⟨_, webhook_user_await_count π3 n3 r3 _ _ ct
      (webhook_user_await_index π2 n2 (RemoteOut.delivers r2) _ _ ix (webhook_user_cb_index π1 n1 (RemoteOut.delivers r1) st)
        rfl hix1 hix2)
      rfl hct (fun hm => absurd (show some "index" = some "rating_tag" from hm)
        (by decide)), rfl, rfl, rfl, rfl, rfl⟩
  · exact ⟨_, webhook_user_await_count π4 n4 r4 _ _ ct
      (webhook_user_await_rtt π3 n3 (RemoteOut.delivers r3) _ _ tg
        (webhook_user_await_rtr π2 n2 (RemoteOut.delivers r2) _ _ rt (webhook_user_cb_rt π1 n1 (RemoteOut.delivers r1) st)
          rfl hrt)
        rfl htg1 htg2)
      rfl hct (fun _ => ⟨pyLower (pyStrip tg), rfl⟩), rfl, rfl, rfl, rfl, rfl⟩

/-- Witness for `c6_flow_resets_state`: the by-rating flow "mode_rating",
"1200", "3" from the initial state. -/
theorem c6_flow_resets_state_w :
    ∃ u' : UserState,
      (runState (webhook (fun _ => true) (fun l => l) 0 (RemoteOut.delivers respBad) (some (.message "3"))
        (runState (webhook (fun _ => true) (fun l => l) 0 (RemoteOut.delivers respBad) (some (.message "1200"))
          (runState (webhook (fun _ => true) (fun l => l) 0 (RemoteOut.delivers respBad)
            (some (.callback "mode_rating")) initSt)))))).user = some u' ∧
      u'.step = none ∧ u'.mode = none ∧ u'.rating = none ∧ u'.tag = none ∧
      u'.index_letter = none :=
  (c6_flow_resets_state initSt (fun l => l) (fun l => l) (fun l => l) (fun l => l)
    0 0 0 0 respBad respBad respBad respBad "1200" "3" "dp" "A"
    (by decide) (by decide) (by decide) (by decide) (by decide) (by decide)).1

/-- The durable state of a send-then-set-step: the step is written only when
the send returned. -/
lemma runState_sendThenStep (sendOut : Nat → Bool) (m : Msg) (s : Option String)
    (st : ExecSt) :
    runState (sendThenStep sendOut m s st) =
      if sendOut st.sent then setStep (push m st) s else push m st := by
  unfold sendThenStep trySend
  by_cases hs2 : sendOut st.sent = true
  · simp [hs2, runState]
  · simp [hs2, runState]

/-- The durable state of `dispatch_reset` carries either the untouched user
row (a send raised) or the reset row. -/
lemma dispatch_reset_user (sendOut : Nat → Bool) (u : UserState) (ps : List Problem)
    (st : ExecSt) :
    (runState (dispatch_reset sendOut u ps st)).user = st.user ∨
    (runState (dispatch_reset sendOut u ps st)).user = some (clearFlow u) := by
  unfold dispatch_reset
  rcases hsp : send_problems sendOut ps st with e | st2
  · left
    have hh := send_problems_user sendOut ps st
    rw [hsp] at hh
    exact hh
  · right; rfl

/-- Every user row a callback event can leave behind: either untouched, or
the previous row (a fresh row when none existed) with `mode` overwritten and
`step` possibly overwritten. -/
lemma handle_callback_user (sendOut : Nat → Bool) (a : String) (st : ExecSt) :
    (runState (handle_callback sendOut a st)).user = st.user ∨
    ∃ m s, (runState (handle_callback sendOut a st)).user =
      some { st.user.getD freshUser with mode := some m, step := s } := by
  obtain ⟨uo, hist, cache, ob, k⟩ := st
  simp only [handle_callback]
  by_cases hpre : pyStartsWith a "mode_" = true
  · rw [if_pos hpre]
    by_cases h1 : String.mk (a.data.drop 5) = "rating"
    · rw [if_pos h1, runState_sendThenStep]
      split <;> cases uo <;> exact Or.inr ⟨String.mk (a.data.drop 5), _, rfl⟩
    rw [if_neg h1]
    by_cases h2 : String.mk (a.data.drop 5) = "tag"
    · rw [if_pos h2, runState_sendThenStep]
      split <;> cases uo <;> exact Or.inr ⟨String.mk (a.data.drop 5), _, rfl⟩
    rw [if_neg h2]
    by_cases h3 : String.mk (a.data.drop 5) = "index"
    · rw [if_pos h3, runState_sendThenStep]
      split <;> cases uo <;> exact Or.inr ⟨String.mk (a.data.drop 5), _, rfl⟩
    rw [if_neg h3]
    by_cases h4 : String.mk (a.data.drop 5) = "rating_tag"
    · rw [if_pos h4, runState_sendThenStep]
      split <;> cases uo <;> exact Or.inr ⟨String.mk (a.data.drop 5), _, rfl⟩
    rw [if_neg h4]
    cases uo <;> exact Or.inr ⟨String.mk (a.data.drop 5), _, rfl⟩
  · rw [if_neg hpre]
    exact Or.inl rfl

/-- Every user row a text event can leave behind: untouched; a fresh NULL row
(first contact); a reset row (/start or a completed flow); or the previous
row with one input field stored and the step advanced. -/
lemma handle_message_user (sendOut : Nat → Bool) (π : List Problem → List Problem)
    (now : Nat) (remote : RemoteOut) (t : String) (st : ExecSt) :
    (runState (handle_message sendOut π now remote t st)).user = st.user ∨
    (runState (handle_message sendOut π now remote t st)).user = some freshUser ∨
    (∃ u, st.user = some u ∧
      ((runState (handle_message sendOut π now remote t st)).user = some (clearFlow u) ∨
       (∃ n : Int, u.step = some "await_rating" ∧
          (runState (handle_message sendOut π now remote t st)).user
          = some { u with rating := some n, step := some "await_count" }) ∨
       (∃ g, (runState (handle_message sendOut π now remote t st)).user
          = some { u with tag := some g, step := some "await_count" }) ∨
       (u.step = some "await_index" ∧
          (runState (handle_message sendOut π now remote t st)).user
          = some { u with index_letter := some (pyUpper (pyStrip t)), step := some "await_count" }) ∨
       (∃ n : Int, (runState (handle_message sendOut π now remote t st)).user
          = some { u with rating := some n, step := some "await_rating_tag_tag" }))) := by
  obtain ⟨uo, hist, cache, ob, k⟩ := st
  cases uo with
  | none =>
    right; left
    simp only [handle_message, start]
    rw [runState_trySend]
    rfl
  | some u0 =>
    simp only [handle_message]
    by_cases hst : pyStrip t = "/start"
    · rw [if_pos hst]
      right; right
      refine ⟨u0, rfl, Or.inl ?_⟩
      simp only [start]
      rw [runState_trySend]
      rfl
    rw [if_neg hst]
    by_cases hhi : pyStrip t = "/history"
    · rw [if_pos hhi]
      left
      simp only [send_history]
      split <;> rw [runState_trySend] <;> rfl
    rw [if_neg hhi]
    by_cases h1 : u0.step = some "await_rating"
    · rw [if_pos h1]
      by_cases hd : pyIsDigit (pyStrip t) = true
      · rw [if_pos hd, runState_trySend]
        right; right
        exact ⟨u0, rfl, Or.inr (Or.inl ⟨(digitsToNat (pyStrip t) : Int), h1, rfl⟩)⟩
      · rw [if_neg hd, runState_trySend]
        left; rfl
    rw [if_neg h1]
    by_cases h2 : u0.step = some "await_tag"
    · rw [if_pos h2, runState_trySend]
      right; right
      exact ⟨u0, rfl, Or.inr (Or.inr (Or.inl ⟨pyLower (pyStrip t), rfl⟩))⟩
    rw [if_neg h2]
    by_cases h3 : u0.step = some "await_index"
    · rw [if_pos h3, runState_trySend]
      right; right
      exact ⟨u0, rfl, Or.inr (Or.inr (Or.inr (Or.inl ⟨h3, rfl⟩)))⟩
    rw [if_neg h3]
    by_cases h4 : u0.step = some "await_rating_tag_rating"
    · rw [if_pos h4]
      by_cases hd : pyIsDigit (pyStrip t) = true
      · rw [if_pos hd, runState_trySend]
        right; right
        exact ⟨u0, rfl, Or.inr (Or.inr (Or.inr (Or.inr ⟨(digitsToNat (pyStrip t) : Int), rfl⟩)))⟩
      · rw [if_neg hd, runState_trySend]
        left; rfl
    rw [if_neg h4]
    by_cases h5 : u0.step = some "await_rating_tag_tag"
    · rw [if_pos h5, runState_trySend]
      right; right
      exact ⟨u0, rfl, Or.inr (Or.inr (Or.inl ⟨pyLower (pyStrip t), rfl⟩))⟩
    rw [if_neg h5]
    by_cases h6 : u0.step = some "await_count"
    · rw [if_pos h6]
      by_cases hd : pyIsDigit (pyStrip t) = true
      · rw [if_pos hd]
        rcases hio : filter_problems_io π u0.mode u0.rating u0.tag u0.index_letter
            (effectiveCount (pyStrip t)) now remote cache with e | fr
        · left; rfl
        · obtain ⟨fres, fcache, freq⟩ := fr
          rcases fres with e2 | L
          · left; rfl
          · rcases dispatch_reset_user sendOut u0 L
                { user := some u0, history := hist, cache := fcache,
                  outbox := ob, sent := k } with hdr | hdr
            · left; exact hdr
            · right; right; exact ⟨u0, rfl, Or.inl hdr⟩
      · rw [if_neg hd, runState_trySend]
        left; rfl
    rw [if_neg h6, runState_trySend]
    left; rfl

/-- The user row after the "mode_index" selection event has been answered. -/
def uAwaitIndex : UserState := ⟨some "await_index", some "index", none, none, none, none⟩

/-- Process state after one successful "mode_index" selection event from the
initial state. -/
def stAwaitIndex : ExecSt := ⟨some uAwaitIndex, [], ⟨0, []⟩, [.promptIndex], 1⟩

/-- The user row after additionally answering "ab" at the index step: the
stored index letter is the two-character string "AB". -/
def uIdxAB : UserState := ⟨some "await_count", some "index", none, none, some "AB", none⟩

/-- Process state holding `index_letter = "AB"`. -/
def stIdxAB : ExecSt := ⟨some uIdxAB, [], ⟨0, []⟩, [.promptIndex, .promptCount], 2⟩

/-- `stAwaitIndex` is reachable. -/
lemma reach_stAwaitIndex : Reachable stAwaitIndex :=
  reach_next (ReachableUnder.init) (fun _ => true) (fun l => l) 0 (RemoteOut.delivers respBad)
    (some (.callback "mode_index")) rfl

/-- `stIdxAB` is reachable (text "ab" at the index step). -/
lemma reach_stIdxAB : Reachable stIdxAB :=
  reach_next reach_stAwaitIndex (fun _ => true) (fun l => l) 0 (RemoteOut.delivers respBad)
    (some (.message "ab")) (by decide)

/-- C8 as stated is false: the index step stores `text.upper()` for ANY text,
so a reachable user row holds `index_letter = "AB"` — an uppercase string of
length 2, not a single letter. -/
theorem c8_single_letter_cex :
    ∃ st : ExecSt, Reachable st ∧ ∃ u, st.user = some u ∧
      u.index_letter = some "AB" ∧ ¬ ("AB" : String).length = 1 :=
  ⟨stIdxAB, reach_stIdxAB, uIdxAB, rfl, rfl, by decide⟩

/-- `webhook` on a callback event is `handle_callback`. -/
lemma webhook_cb (sendOut : Nat → Bool) (π : List Problem → List Problem) (now : Nat)
    (remote : RemoteOut) (a : String) (st : ExecSt) :
    webhook sendOut π now remote (some (.callback a)) st = handle_callback sendOut a st := rfl

/-- `webhook` on a message event is `handle_message`. -/
lemma webhook_msg (sendOut : Nat → Bool) (π : List Problem → List Problem) (now : Nat)
    (remote : RemoteOut) (t : String) (st : ExecSt) :
    webhook sendOut π now remote (some (.message t)) st
      = handle_message sendOut π now remote t st := rfl

/-- C8 (amended): in every user row reachable through the controller — under
arbitrary send outcomes — the stored `index_letter` is either NULL or the
Python-uppercased form of some string (hence contains no lowercase letters),
but its length is not constrained to one. -/
theorem c8_index_letter_upper (st : ExecSt) (h : Reachable st) :
    ∀ u, st.user = some u →
      u.index_letter = none ∨ ∃ s, u.index_letter = some (pyUpper s) := by
  induction h with
  | init =>
    intro u hu
    cases hu
  | step sendOut π now resp ev hP hprev ih =>
    rename_i st0
    rcases ev with _ | (a | t)
    · exact ih
    · intro u hu
      rw [webhook_cb] at hu
      rcases handle_callback_user sendOut a st0 with hc | ⟨m, sx, hc⟩
      · exact ih u (hc ▸ hu)
      · rw [hc] at hu
        injection hu with hx
        subst hx
        rcases hu0 : st0.user with _ | u0
        · left; rfl
        · exact ih u0 hu0
    · intro u hu
      rw [webhook_msg] at hu
      rcases handle_message_user sendOut π now resp t st0 with hm | hm | ⟨u0, hu0, hm⟩
      · exact ih u (hm ▸ hu)
      · rw [hm] at hu
        injection hu with hx
        subst hx
        left; rfl
      · rcases hm with hm | ⟨n, hsx, hm⟩ | ⟨g, hm⟩ | ⟨hsx, hm⟩ | ⟨n, hm⟩ <;>
          rw [hm] at hu <;> injection hu with hx <;> subst hx
        · left; rfl
        · exact ih u0 hu0
        · exact ih u0 hu0
        · right; exact ⟨pyStrip t, rfl⟩
        · exact ih u0 hu0

/-- Witness for `c8_index_letter_upper` at the reachable state `stIdxAB`. -/
theorem c8_index_letter_upper_w :
    uIdxAB.index_letter = none ∨ ∃ s, uIdxAB.index_letter = some (pyUpper s) :=
  c8_index_letter_upper stIdxAB reach_stIdxAB uIdxAB rfl

/-- With all sends succeeding, a send-then-set-step always sets the step. -/
lemma runState_sendThenStep_allOk (m : Msg) (s : Option String) (st : ExecSt) :
    runState (sendThenStep (fun _ => true) m s st) = setStep (push m st) s := by
  rw [runState_sendThenStep]
  rfl

/-- Every user row a callback event can leave behind when every send
succeeds: untouched; mode overwritten with an unrecognized name (step
untouched); or mode AND step overwritten together for a recognized name. -/
lemma handle_callback_user_allOk (a : String) (st : ExecSt) :
    (runState (handle_callback (fun _ => true) a st)).user = st.user ∨
    (∃ m, m ≠ "rating_tag" ∧
      (runState (handle_callback (fun _ => true) a st)).user
        = some { st.user.getD freshUser with mode := some m }) ∨
    (runState (handle_callback (fun _ => true) a st)).user
        = some { st.user.getD freshUser with mode := some "rating", step := some "await_rating" } ∨
    (runState (handle_callback (fun _ => true) a st)).user
        = some { st.user.getD freshUser with mode := some "tag", step := some "await_tag" } ∨
    (runState (handle_callback (fun _ => true) a st)).user
        = some { st.user.getD freshUser with mode := some "index", step := some "await_index" } ∨
    (runState (handle_callback (fun _ => true) a st)).user
        = some { st.user.getD freshUser with mode := some "rating_tag", step := some "await_rating_tag_rating" } := by
  obtain ⟨uo, hist, cache, ob, k⟩ := st
  simp only [handle_callback]
  by_cases hpre : pyStartsWith a "mode_" = true
  · rw [if_pos hpre]
    by_cases h1 : String.mk (a.data.drop 5) = "rating"
    · rw [if_pos h1, runState_sendThenStep_allOk, h1]
      right; right; left
      cases uo <;> rfl
    rw [if_neg h1]
    by_cases h2 : String.mk (a.data.drop 5) = "tag"
    · rw [if_pos h2, runState_sendThenStep_allOk, h2]
      right; right; right; left
      cases uo <;> rfl
    rw [if_neg h2]
    by_cases h3 : String.mk (a.data.drop 5) = "index"
    · rw [if_pos h3, runState_sendThenStep_allOk, h3]
      right; right; right; right; left
      cases uo <;> rfl
    rw [if_neg h3]
    by_cases h4 : String.mk (a.data.drop 5) = "rating_tag"
    · rw [if_pos h4, runState_sendThenStep_allOk, h4]
      right; right; right; right; right
      cases uo <;> rfl
    rw [if_neg h4]
    right; left
    exact ⟨String.mk (a.data.drop 5), h4, by cases uo <;> rfl⟩
  · rw [if_neg hpre]
    exact Or.inl rfl

/-- The invariant behind the safety of the `tag.lower()` call: whenever the
stored mode is "rating_tag", the flow is either still collecting its two
inputs, or it sits at the count step with a tag already stored. -/
def RTInv (st : ExecSt) : Prop :=
  ∀ u, st.user = some u → u.mode = some "rating_tag" →
    u.step = some "await_rating_tag_rating" ∨ u.step = some "await_rating_tag_tag" ∨
    (u.step = some "await_count" ∧ u.tag ≠ none)

/-- `RTInv` holds in every state reachable with all sends succeeding. -/
lemma rtinv_reachableOk (st : ExecSt) (h : ReachableOk st) : RTInv st := by
  induction h with
  | init =>
    intro u hu
    cases hu
  | step sendOut π now resp ev hP hprev ih =>
    rename_i st0
    have hso : sendOut = fun _ => true := funext fun n => hP n
    subst hso
    rcases ev with _ | (a | t)
    · exact ih
    · intro u hu hmode
      rw [webhook_cb] at hu
      rcases handle_callback_user_allOk a st0 with hc | ⟨m, hm, hc⟩ | hc | hc | hc | hc <;>
        rw [hc] at hu
      · exact ih u hu hmode
      · injection hu with hx
        subst hx
        injection hmode with hg
        exact absurd hg hm
      · injection hu with hx
        subst hx
        exact absurd (show (some "rating" : Option String) = some "rating_tag" from hmode)
          (by decide)
      · injection hu with hx
        subst hx
        exact absurd (show (some "tag" : Option String) = some "rating_tag" from hmode)
          (by decide)
      · injection hu with hx
        subst hx
        exact absurd (show (some "index" : Option String) = some "rating_tag" from hmode)
          (by decide)
      · injection hu with hx
        subst hx
        left
        rfl
    · intro u hu hmode
      rw [webhook_msg] at hu
      rcases handle_message_user (fun _ => true) π now resp t st0 with hm | hm | ⟨u0, hu0, hm⟩
      · exact ih u (hm ▸ hu) hmode
      · rw [hm] at hu
        injection hu with hx
        subst hx
        exact Option.noConfusion hmode
      · rcases hm with hm | ⟨n, hsx, hm⟩ | ⟨g, hm⟩ | ⟨hsx, hm⟩ | ⟨n, hm⟩ <;>
          rw [hm] at hu <;> injection hu with hx <;> subst hx
        · exact Option.noConfusion hmode
        · rcases ih u0 hu0 hmode with h1 | h1 | ⟨h1, _⟩ <;> rw [hsx] at h1 <;>
            exact absurd h1 (by decide)
        · right; right
          exact ⟨rfl, fun hh => Option.noConfusion hh⟩
        · rcases ih u0 hu0 hmode with h1 | h1 | ⟨h1, _⟩ <;> rw [hsx] at h1 <;>
            exact absurd h1 (by decide)
        · right; left
          rfl

/-- User row of a rating_tag flow after its selection event. -/
def uRTR : UserState := ⟨some "await_rating_tag_rating", some "rating_tag", none, none, none, none⟩

/-- State of a rating_tag flow after its selection event (all sends ok). -/
def stRTR : ExecSt := ⟨some uRTR, [], ⟨0, []⟩, [.promptRTRating], 1⟩

/-- User row of a rating_tag flow after its rating input. -/
def uRTT : UserState := ⟨some "await_rating_tag_tag", some "rating_tag", some 1300, none, none, none⟩

/-- State of a rating_tag flow after its rating input. -/
def stRTT : ExecSt := ⟨some uRTT, [], ⟨0, []⟩, [.promptRTRating, .promptRTTag], 2⟩

/-- User row of a rating_tag flow at the count step: the tag is stored. -/
def uRTCount : UserState :=
  ⟨some "await_count", some "rating_tag", some 1300, some "dp", none, none⟩

/-- State of a rating_tag flow at the count step. -/
def stRTCount : ExecSt := ⟨some uRTCount, [], ⟨0, []⟩, [.promptRTRating, .promptRTTag, .promptCount], 3⟩

/-- `stRTR` is reachable with all sends succeeding. -/
lemma reachOk_stRTR : ReachableOk stRTR :=
  reachOk_next (ReachableUnder.init) (fun l => l) 0 (RemoteOut.delivers respBad)
    (some (.callback "mode_rating_tag")) rfl

/-- `stRTT` is reachable with all sends succeeding. -/
lemma reachOk_stRTT : ReachableOk stRTT :=
  reachOk_next reachOk_stRTR (fun l => l) 0 (RemoteOut.delivers respBad) (some (.message "1300")) rfl

/-- `stRTCount` is reachable with all sends succeeding. -/
lemma reachOk_stRTCount : ReachableOk stRTCount :=
  reachOk_next reachOk_stRTT (fun l => l) 0 (RemoteOut.delivers respBad) (some (.message "dp")) (by decide)

/-- User row left behind when the "mode_rating_tag" selection event's prompt
send raises: the mode is already written, the step still `await_count` from
the abandoned by-rating flow, the tag NULL. -/
def uBroken : UserState := ⟨some "await_count", some "rating_tag", some 1200, none, none, none⟩

/-- State reached from `stAwaitCount` when the "mode_rating_tag" prompt send
raises. -/
def stBroken : ExecSt :=
  ⟨some uBroken, [], ⟨0, []⟩, [.promptRating, .promptCount, .promptRTRating], 3⟩

/-- `stBroken` is reachable (the selection event's send raises). -/
lemma reach_stBroken : Reachable stBroken :=
  reach_next reach_stAwaitCount (fun _ => false) (fun l => l) 0 (RemoteOut.delivers respBad)
    (some (.callback "mode_rating_tag")) rfl

/-- C10 as stated is false in its reachability half: when an outbound send
failure interrupts the "mode_rating_tag" selection event between the mode
write and the step write, a state with mode "rating_tag", step "await_count"
and a NULL tag IS reachable, and the next digit message makes
`filter_problems` hit the `tag.lower()` call on `None` — the handler raises
instead of acknowledging. -/
theorem c10_reachable_fault_cex :
    ∃ st : ExecSt, Reachable st ∧
      (∃ u, st.user = some u ∧ u.mode = some "rating_tag" ∧ u.step = some "await_count" ∧
        u.tag = none) ∧
      ∃ e, webhook (fun _ => true) (fun l => l) 0 (RemoteOut.delivers respA) (some (.message "3")) st
        = .error e :=
  ⟨stBroken, reach_stBroken, ⟨uBroken, rfl, rfl, rfl, rfl⟩, ⟨_, rfl⟩⟩

/-- C10 (amended): `filter_problems` in mode "rating_tag" never raises when
the tag is non-null; and in every state reachable with all outbound sends
succeeding, mode "rating_tag" at step "await_count" implies the stored tag is
non-null — so with reliable sends the faulting `tag.lower()` branch is
unreachable through the webhook flow. -/
theorem c10_rating_tag_guard :
    (∀ (π : List Problem → List Problem) (rating : Option Int) (g : String)
        (idx : Option String) (cnt now : Nat) (resp : HttpResp) (c : CFCache),
      ∃ L, (filter_problems π (some "rating_tag") rating (some g) idx cnt now resp c).result
          = .ok L) ∧
    (∀ st, ReachableOk st → ∀ u, st.user = some u → u.mode = some "rating_tag" →
      u.step = some "await_count" → u.tag ≠ none) := by
  constructor
  · intro π rating g idx cnt now resp c
    exact filter_result_ok π (some "rating_tag") rating (some g) idx cnt now resp c
      (fun _ => ⟨g, rfl⟩)
  · intro st h u hu hm hs
    rcases rtinv_reachableOk st h u hu hm with h1 | h1 | ⟨_, h2⟩
    · rw [hs] at h1
      exact absurd h1 (by decide)
    · rw [hs] at h1
      exact absurd h1 (by decide)
    · exact h2

/-- Witness for `c10_rating_tag_guard`: a concrete non-null-tag filter call
and the concrete all-sends-ok state `stRTCount`. -/
theorem c10_rating_tag_guard_w :
    (∃ L, (filter_problems (fun l => l) (some "rating_tag") (some 1200) (some "dp") none 3 0
        respBad cGood).result = .ok L) ∧ uRTCount.tag ≠ none :=
  ⟨c10_rating_tag_guard.1 (fun l => l) (some 1200) "dp" none 3 0 respBad cGood,
    c10_rating_tag_guard.2 stRTCount reachOk_stRTCount uRTCount rfl rfl rfl⟩

/-- C4 as stated is false, on two counts.  `send_message` performs
`requests.post` with no exception handling, so a raising send (e.g. a
timeout) propagates out of the handler and Flask answers 500, not the 200
acknowledgement: in the first run the very first send of the request raises
and the handler does not acknowledge.  And `requests.get` / `resp.json()`
inside `fetch_cf_problems` are equally unguarded: in the second run, at the
count step with an empty cache, the catalog call raises and the handler does
not acknowledge although every outbound send succeeded. -/
theorem c4_send_failure_cex :
    respondedOk (webhook (fun _ => false) (fun l => l) 0 (RemoteOut.delivers respBad)
      (some (.message "hi")) initSt) = false ∧
    respondedOk (webhook (fun _ => true) (fun l => l) 0 RemoteOut.raises
      (some (.message "3")) stAwaitCount) = false :=
  ⟨rfl, rfl⟩

/-- C4 (amended): the handler never inspects the HTTP status of an outbound
send (an error response blocks nothing), and whenever every outbound send
returns without raising, the remote catalog call — which only the
awaiting-count branch attempts, and only on a cache miss — does not raise,
and the rating_tag/NULL-tag corner of `filter_problems` is not hit, the
handler acknowledges with 200.  A raising send, a raising catalog fetch
(`requests.get` / `resp.json()` are unguarded too) or the `tag.lower()`
fault aborts the acknowledgement. -/
theorem c4_ack_when_sends_return (π : List Problem → List Problem) (now : Nat)
    (remote : RemoteOut) (ev : Option Event) (st : ExecSt)
    (hsafe : ∀ u, st.user = some u → u.mode = some "rating_tag" →
      u.step = some "await_count" → u.tag ≠ none)
    (hremote : remote = RemoteOut.raises →
      ∀ u, st.user = some u → u.step = some "await_count" →
        st.cache.problems ≠ [] ∧ now - st.cache.timestamp < CF_CACHE_TTL) :
    ∃ st2, webhook (fun _ => true) π now remote ev st = .ok st2 := by
  rcases ev with _ | (a | t)
  · exact ⟨st, rfl⟩
  · rw [webhook_cb]
    obtain ⟨uo, hist, cache, ob, k⟩ := st
    simp only [handle_callback]
    by_cases hpre : pyStartsWith a "mode_" = true
    · rw [if_pos hpre]
      by_cases h1 : String.mk (a.data.drop 5) = "rating"
      · rw [if_pos h1]; exact ⟨_, rfl⟩
      rw [if_neg h1]
      by_cases h2 : String.mk (a.data.drop 5) = "tag"
      · rw [if_pos h2]; exact ⟨_, rfl⟩
      rw [if_neg h2]
      by_cases h3 : String.mk (a.data.drop 5) = "index"
      · rw [if_pos h3]; exact ⟨_, rfl⟩
      rw [if_neg h3]
      by_cases h4 : String.mk (a.data.drop 5) = "rating_tag"
      · rw [if_pos h4]; exact ⟨_, rfl⟩
      rw [if_neg h4]
      exact ⟨_, rfl⟩
    · rw [if_neg hpre]
      exact ⟨_, rfl⟩
  · rw [webhook_msg]
    obtain ⟨uo, hist, cache, ob, k⟩ := st
    cases uo with
    | none => exact ⟨_, rfl⟩
    | some u0 =>
      simp only [handle_message]
      by_cases hst : pyStrip t = "/start"
      · rw [if_pos hst]; exact ⟨_, rfl⟩
      rw [if_neg hst]
      by_cases hhi : pyStrip t = "/history"
      · rw [if_pos hhi]
        simp only [send_history]
        split
        · exact ⟨_, rfl⟩
        · exact ⟨_, rfl⟩
      rw [if_neg hhi]
      by_cases h1 : u0.step = some "await_rating"
      · rw [if_pos h1]
        by_cases hd : pyIsDigit (pyStrip t) = true
        · rw [if_pos hd]; exact ⟨_, rfl⟩
        · rw [if_neg hd]; exact ⟨_, rfl⟩
      rw [if_neg h1]
      by_cases h2 : u0.step = some "await_tag"
      · rw [if_pos h2]; exact ⟨_, rfl⟩
      rw [if_neg h2]
      by_cases h3 : u0.step = some "await_index"
      · rw [if_pos h3]; exact ⟨_, rfl⟩
      rw [if_neg h3]
      by_cases h4 : u0.step = some "await_rating_tag_rating"
      · rw [if_pos h4]
        by_cases hd : pyIsDigit (pyStrip t) = true
        · rw [if_pos hd]; exact ⟨_, rfl⟩
        · rw [if_neg hd]; exact ⟨_, rfl⟩
      rw [if_neg h4]
      by_cases h5 : u0.step = some "await_rating_tag_tag"
      · rw [if_pos h5]; exact ⟨_, rfl⟩
      rw [if_neg h5]
      by_cases h6 : u0.step = some "await_count"
      · rw [if_pos h6]
        by_cases hd : pyIsDigit (pyStrip t) = true
        · rw [if_pos hd]
          rcases remote with _ | resp
          · obtain ⟨hne, hlt⟩ := hremote rfl u0 rfl h6
            have hio : filter_problems_io π u0.mode u0.rating u0.tag u0.index_letter
                (effectiveCount (pyStrip t)) now RemoteOut.raises cache
                = .ok (filter_from π u0.mode u0.rating u0.tag u0.index_letter
                    (effectiveCount (pyStrip t)) ⟨cache.problems, cache, false, true⟩) := by
              unfold filter_problems_io fetch_cf_problems_io
              rw [if_pos ⟨hne, rfl, hlt⟩]
            rw [hio]
            obtain ⟨L, hL⟩ := filter_from_result_ok π u0.mode u0.rating u0.tag
              u0.index_letter (effectiveCount (pyStrip t))
              ⟨cache.problems, cache, false, true⟩
              (fun hm => Option.ne_none_iff_exists'.mp (hsafe u0 rfl hm h6))
            simp only [hL]
            obtain ⟨st2, h2, _⟩ := dispatch_reset_allOk u0 L
              { user := some u0, history := hist,
                cache := (filter_from π u0.mode u0.rating u0.tag u0.index_letter
                  (effectiveCount (pyStrip t)) ⟨cache.problems, cache, false, true⟩).cache,
                outbox := ob, sent := k }
            exact ⟨st2, h2⟩
          · rw [filter_io_delivers]
            obtain ⟨L, hL⟩ := filter_result_ok π u0.mode u0.rating u0.tag u0.index_letter
              (effectiveCount (pyStrip t)) now resp cache
              (fun hm => Option.ne_none_iff_exists'.mp (hsafe u0 rfl hm h6))
            simp only [hL]
            obtain ⟨st2, h2, _⟩ := dispatch_reset_allOk u0 L
              { user := some u0, history := hist,
                cache := (filter_problems π u0.mode u0.rating u0.tag u0.index_letter
                  (effectiveCount (pyStrip t)) now resp cache).cache,
                outbox := ob, sent := k }
            exact ⟨st2, h2⟩
        · rw [if_neg hd]; exact ⟨_, rfl⟩
      rw [if_neg h6]
      exact ⟨_, rfl⟩

/-- Witness for `c4_ack_when_sends_return`: a free-text message from a user
with no row, all sends succeeding. -/
theorem c4_ack_when_sends_return_w :
    ∃ st2, webhook (fun _ => true) (fun l => l) 0 (RemoteOut.delivers respBad) (some (.message "hi")) initSt
      = .ok st2 :=
  c4_ack_when_sends_return (fun l => l) 0 (RemoteOut.delivers respBad) (some (.message "hi")) initSt
    (fun _ hu => nomatch hu) (fun h => nomatch h)

end CFBot
